import Mathlib

/-!
Verification development for the `MidiFileStream` library
(`MidiFileStream.h`, `MidiFileStream.cpp`): a stream-based Standard MIDI
File reader for Arduino.

The C++ code is shallowly embedded below.  Machine integers are modeled
explicitly:
* `long` is a 32-bit signed integer on AVR Arduino; values that can
  overflow are accumulated as `Nat` modulo `2^32` and reinterpreted with
  `toSigned32`.
* `int` is a 16-bit signed integer on AVR Arduino; the `(int)` casts in
  `begin` are modeled with `toSigned16`.
* the byte source (`Stream::read()`) yields one byte `0..255` per call,
  or `-1` when exhausted; it is modeled as a `List Nat` of the remaining
  bytes (all `< 256`).
* the C bitwise operations are applied only at byte-range (or `-1`)
  operands; they are modeled by the equivalent two's-complement
  arithmetic (`and0x80`, `and0x7F`, `and0x0F`, `orNeg0x80`), which the
  kernel can evaluate.
* the overlapping `union eventData` is modeled as a structure with one
  independent field per variant; every event writes its own variant
  before it is read, so no claim depends on the overlap.
-/

/-- Reinterpretation of an integer as a signed 16-bit `int` (AVR Arduino),
two's complement. -/
def toSigned16 (x : Int) : Int :=
  if x % 65536 < 32768 then x % 65536 else x % 65536 - 65536

/-- Reinterpretation of an unsigned accumulator as a signed 32-bit `long`
(AVR Arduino), two's complement. -/
def toSigned32 (x : Nat) : Int :=
  if (x % 4294967296 : Nat) < 2147483648 then ((x % 4294967296 : Nat) : Int)
  else ((x % 4294967296 : Nat) : Int) - 4294967296

/-- Two's-complement `x & 0x80`: the value of bit 7 of `x`. -/
def and0x80 (x : Int) : Int := if x % 256 < 128 then 0 else 128

/-- Two's-complement `x & 0x7F`: the low 7 bits of `x`. -/
def and0x7F (x : Int) : Int := x % 128

/-- Two's-complement `x & 0x0F`: the low 4 bits of `x`. -/
def and0x0F (x : Int) : Int := x % 16

/-- Two's-complement `x | (-0x80)` for an `x` whose bit 7 is set (the
only case in which the source applies it, to sign-extend the
key-signature byte): all bits from 7 up become 1. -/
def orNeg0x80 (x : Int) : Int := x % 128 - 128

/-! Chunk types, from `MidiFileStream.h` (`chunk_t`, `CT_*`). -/

def CT_UNK : Nat := 0
def CT_END : Nat := 1
def CT_MTHD : Nat := 100
def CT_MTRK : Nat := 101

/-! Event types, from `MidiFileStream.h` (`event_t`, `ET_*`).
`ET_CHAN_PFX` models the source's meta channel-prefix event type
(value 13). -/

def ET_UNK : Nat := 0
def ET_NO_OP : Nat := 1
def ET_END : Nat := 2
def ET_SYSEX_F0 : Nat := 3
def ET_SYSEX_ESC : Nat := 4
def ET_SEQ_NUM : Nat := 5
def ET_TEXT : Nat := 6
def ET_COPYRIGHT : Nat := 7
def ET_NAME : Nat := 8
def ET_INSTRUMENT : Nat := 9
def ET_LYRIC : Nat := 10
def ET_MARKER : Nat := 11
def ET_CUE : Nat := 12
def ET_CHAN_PFX : Nat := 13
def ET_END_TRACK : Nat := 14
def ET_TEMPO : Nat := 15
def ET_SMPTE_OFFSET : Nat := 16
def ET_TIME_SIGN : Nat := 17
def ET_KEY_SIGN : Nat := 18
def ET_CHANNEL : Nat := 19

/-- Size of all the character buffers in the `ET_*` value structures
(`EV_BUFFER_SIZE = 140 + 1` in `MidiFileStream.h`). -/
def EV_BUFFER_SIZE : Int := 141

/-- Model of the `{ int length; char bytes[EV_BUFFER_SIZE]; }` structs
(`dataSysexF0`, `dataText`, ...).  The 141-byte array is modeled as a
function from index to stored byte value. -/
structure DataBytes where
  length : Int
  bytes : Nat → Nat

/-- Model of `union eventData` from `MidiFileStream.h`, flattened into
independent fields (each decode writes its variant before reading it, so
the union overlap is never observed by the properties below). -/
structure EventData where
  sysexF0 : DataBytes
  sysexEsc : DataBytes
  seqNum : Int
  text : DataBytes
  copyright : DataBytes
  name : DataBytes
  instrument : DataBytes
  lyric : DataBytes
  marker : DataBytes
  cue : DataBytes
  chanPfx : Int
  tempoUSecPerBeat : Int
  smpteHours : Int
  smpteMinutes : Int
  smpteSeconds : Int
  smpteFrames : Int
  smpteF100ths : Int
  timeNumer : Int
  timeDenom : Int
  timeMetro : Int
  timeM32nds : Int
  keyNumSharps : Int
  keyIsMinor : Int
  chCode : Int
  chChan : Int
  chParam1 : Int
  chParam2 : Int

/-- Model of the `MidiFileStream` object state: its private fields
(`_bytesLeft`, `_format`, `_numTracks`, `_ticksPerBeat`,
`_runningStatus`, `_eventType`, `_eventDeltaTicks`, `_eventData`)
together with the remaining bytes of the underlying `Stream`. -/
structure MidiFileStream where
  stream : List Nat
  bytesLeft : Int
  format : Int
  numTracks : Int
  ticksPerBeat : Int
  runningStatus : Int
  eventType : Nat
  eventDeltaTicks : Int
  eventData : EventData

/-- Model of `_pStream->read()`: pop the next byte of the underlying
stream, or return `-1` if the stream is exhausted. -/
def MidiFileStream.streamRead (s : MidiFileStream) : Int × MidiFileStream :=
  match s.stream with
  | [] => (-1, s)
  | b :: rest => ((b : Int), { s with stream := rest })

/-- `MidiFileStream::readChunkByte` (MidiFileStream.cpp lines 975-982):
return `-1` without touching the stream if `_bytesLeft <= 0`; otherwise
decrement `_bytesLeft` and read one byte from the underlying stream. -/
def MidiFileStream.readChunkByte (s : MidiFileStream) : Int × MidiFileStream :=
  if s.bytesLeft ≤ 0 then (-1, s)
  else MidiFileStream.streamRead { s with bytesLeft := s.bytesLeft - 1 }

/-- Loop body of `MidiFileStream::readFixedLong` (lines 855-878):
read `n` more bytes, accumulating big-endian into the 32-bit `result`
(`result <<= 8; result |= bint`, modeled as unsigned accumulation modulo
`2^32`); `-1` if any read fails. -/
def MidiFileStream.readFixedLongAux :
    Nat → Nat → MidiFileStream → Int × MidiFileStream
  | 0, resultU, s => (toSigned32 resultU, s)
  | n + 1, resultU, s =>
    let p := MidiFileStream.readChunkByte s
    if p.1 < 0 then (-1, p.2)
    else MidiFileStream.readFixedLongAux n
      ((resultU * 256 + p.1.toNat) % 4294967296) p.2

/-- `MidiFileStream::readFixedLong` (MidiFileStream.cpp lines 855-878). -/
def MidiFileStream.readFixedLong (numBytes : Nat) (s : MidiFileStream) :
    Int × MidiFileStream :=
  MidiFileStream.readFixedLongAux numBytes 0 s

/-- Loop of `MidiFileStream::readVariableLong` (lines 940-968).
Arguments are the loop state: `numBytes` bytes read so far, the unsigned
bit pattern `resultU` of the 32-bit `result`, and the stream state.  The
first argument is structural fuel; the source loop executes at most 6
times (`numBytes > 4` terminates it), so the initial fuel of 6 is never
exhausted. -/
def MidiFileStream.rvlAux :
    Nat → Nat → Nat → MidiFileStream → Int × MidiFileStream
  | 0, _, _, s => (-1, s)
  | fuel + 1, numBytes, resultU, s =>
    if numBytes > 4 then (-1, s)
    else
      let p := MidiFileStream.readChunkByte s
      if p.1 < 0 then (-1, p.2)
      else
        let resultU2 := (resultU * 128 + (and0x7F p.1).toNat) % 4294967296
        if and0x80 p.1 = 128 then
          MidiFileStream.rvlAux fuel (numBytes + 1) resultU2 p.2
        else (toSigned32 resultU2, p.2)

/-- `MidiFileStream::readVariableLong` (MidiFileStream.cpp lines
940-968): decode a variable-length quantity from the current chunk,
returning the number, or `-1` on failure (chunk exhausted, or the
number is not terminated after reading 5 bytes). -/
def MidiFileStream.readVariableLong (s : MidiFileStream) :
    Int × MidiFileStream :=
  MidiFileStream.rvlAux 6 0 0 s

/-- Read loop of `MidiFileStream::readVariableBytes` (lines 904-917):
read `n` bytes, storing them in the buffer at successive indices
starting at `idx`.  Returns `(success, next index, buffer, state)`. -/
def MidiFileStream.rvbRead :
    Nat → Nat → (Nat → Nat) → MidiFileStream →
    Bool × Nat × (Nat → Nat) × MidiFileStream
  | 0, idx, buf, s => (true, idx, buf, s)
  | n + 1, idx, buf, s =>
    let p := MidiFileStream.readChunkByte s
    if p.1 < 0 then (false, idx, buf, p.2)
    else MidiFileStream.rvbRead n (idx + 1)
      (Function.update buf idx p.1.toNat) p.2

/-- Skip loop of `MidiFileStream::readVariableBytes` (lines 920-930):
consume `n` bytes from the chunk, discarding them. -/
def MidiFileStream.rvbSkip : Nat → MidiFileStream → Bool × MidiFileStream
  | 0, s => (true, s)
  | n + 1, s =>
    let p := MidiFileStream.readChunkByte s
    if p.1 < 0 then (false, p.2)
    else MidiFileStream.rvbSkip n p.2

/-- `MidiFileStream::readVariableBytes` (MidiFileStream.cpp lines
891-934): read exactly `length` bytes from the chunk, storing at most
`EV_BUFFER_SIZE - 1` of them into the buffer followed by a null
terminator, consuming (and discarding) the excess.  Returns the stored
(truncated) length and the updated buffer and state, or `-1` on a read
failure. -/
def MidiFileStream.readVariableBytes (length : Int) (pBuffer : Nat → Nat)
    (s : MidiFileStream) : Int × (Nat → Nat) × MidiFileStream :=
  let buf := Function.update pBuffer 0 0
  let truncLength : Int :=
    if length > EV_BUFFER_SIZE - 1 then EV_BUFFER_SIZE - 1 else length
  let r := MidiFileStream.rvbRead truncLength.toNat 0 buf s
  if r.1 = false then (-1, r.2.2.1, r.2.2.2)
  else
    let buf2 := Function.update r.2.2.1 r.2.1 0
    let k := MidiFileStream.rvbSkip (length - truncLength).toNat r.2.2.2
    if k.1 = false then (-1, buf2, k.2)
    else (truncLength, buf2, k.2)

/-- Byte-consuming loop of the unknown-meta-event case of
`MidiFileStream::readEvent` (lines 760-770): read and discard `n` bytes,
failing if any read fails. -/
def MidiFileStream.metaSkip : Nat → MidiFileStream → Bool × MidiFileStream
  | 0, s => (true, s)
  | n + 1, s =>
    let p := MidiFileStream.readChunkByte s
    if p.1 < 0 then (false, p.2)
    else MidiFileStream.metaSkip n p.2

/-- Meta sequence-number case of `MidiFileStream::readEvent`
(MidiFileStream.cpp lines 365-391).  `length` must be exactly 2, then a
2-byte fixed number is read; `(int) l` is the AVR 16-bit cast. -/
def MidiFileStream.caseSeqNum (length : Int) (s0 : MidiFileStream) :
    Nat × MidiFileStream :=
  let s := { s0 with eventType := ET_SEQ_NUM }
  if length ≠ 2 then (ET_UNK, { s with eventType := ET_UNK })
  else
    let p := MidiFileStream.readFixedLong 2 s
    if p.1 < 0 then (ET_UNK, { p.2 with eventType := ET_UNK })
    else
      let s2 := { p.2 with
        eventData := { p.2.eventData with seqNum := toSigned16 p.1 } }
      (s2.eventType, s2)

/-- Common shape of the seven text-like meta cases of
`MidiFileStream::readEvent` (text 0x01, copyright 0x02, name 0x03,
instrument 0x04, lyric 0x05, marker 0x06, cue 0x07; MidiFileStream.cpp
lines 393-517): set the event type, read the declared bytes into the
corresponding buffer via `readVariableBytes`, store the returned length,
and fail with `ET_UNK` if the read failed. -/
def MidiFileStream.readTextLikeMeta (et : Nat)
    (readBuf : EventData → DataBytes)
    (store : EventData → DataBytes → EventData)
    (length : Int) (s0 : MidiFileStream) : Nat × MidiFileStream :=
  let s := { s0 with eventType := et }
  let q := MidiFileStream.readVariableBytes length (readBuf s.eventData).bytes s
  let s2 := { q.2.2 with
    eventData := store q.2.2.eventData { length := q.1, bytes := q.2.1 } }
  if q.1 < 0 then (ET_UNK, { s2 with eventType := ET_UNK })
  else (s2.eventType, s2)

/-- Meta channel-prefix case of `MidiFileStream::readEvent`
(MidiFileStream.cpp lines 519-545): `length` must be exactly 1, then one
byte is read into the channel field. -/
def MidiFileStream.caseChanPfx (length : Int) (s0 : MidiFileStream) :
    Nat × MidiFileStream :=
  let s := { s0 with eventType := ET_CHAN_PFX }
  if length ≠ 1 then (ET_UNK, { s with eventType := ET_UNK })
  else
    let p := MidiFileStream.readChunkByte s
    if p.1 < 0 then (ET_UNK, { p.2 with eventType := ET_UNK })
    else
      let s2 := { p.2 with
        eventData := { p.2.eventData with chanPfx := p.1 } }
      (s2.eventType, s2)

/-- Meta end-of-track case of `MidiFileStream::readEvent`
(MidiFileStream.cpp lines 547-563): `length` must be exactly 0; the
event carries no data. -/
def MidiFileStream.caseEndTrack (length : Int) (s0 : MidiFileStream) :
    Nat × MidiFileStream :=
  let s := { s0 with eventType := ET_END_TRACK }
  if length ≠ 0 then (ET_UNK, { s with eventType := ET_UNK })
  else (s.eventType, s)

/-- Meta set-tempo case of `MidiFileStream::readEvent`
(MidiFileStream.cpp lines 565-590): `length` must be exactly 3, then a
3-byte fixed number is read (assigned before the failure check, as in
the source). -/
def MidiFileStream.caseTempo (length : Int) (s0 : MidiFileStream) :
    Nat × MidiFileStream :=
  let s := { s0 with eventType := ET_TEMPO }
  if length ≠ 3 then (ET_UNK, { s with eventType := ET_UNK })
  else
    let p := MidiFileStream.readFixedLong 3 s
    let s2 := { p.2 with
      eventData := { p.2.eventData with tempoUSecPerBeat := p.1 } }
    if p.1 < 0 then (ET_UNK, { s2 with eventType := ET_UNK })
    else (s2.eventType, s2)

/-- Meta SMPTE-offset case of `MidiFileStream::readEvent`
(MidiFileStream.cpp lines 592-652): `length` must be exactly 5, then
five bytes are read.  As in the source, a failed byte read sets the
event type to `ET_UNK` but does not return: the `-1` is stored in the
field and reading continues. -/
def MidiFileStream.caseSmpteOffset (length : Int) (s0 : MidiFileStream) :
    Nat × MidiFileStream :=
  let s := { s0 with eventType := ET_SMPTE_OFFSET }
  if length ≠ 5 then (ET_UNK, { s with eventType := ET_UNK })
  else
    let p1 := MidiFileStream.readChunkByte s
    let s := if p1.1 < 0 then { p1.2 with eventType := ET_UNK } else p1.2
    let s := { s with eventData := { s.eventData with smpteHours := p1.1 } }
    let p2 := MidiFileStream.readChunkByte s
    let s := if p2.1 < 0 then { p2.2 with eventType := ET_UNK } else p2.2
    let s := { s with eventData := { s.eventData with smpteMinutes := p2.1 } }
    let p3 := MidiFileStream.readChunkByte s
    let s := if p3.1 < 0 then { p3.2 with eventType := ET_UNK } else p3.2
    let s := { s with eventData := { s.eventData with smpteSeconds := p3.1 } }
    let p4 := MidiFileStream.readChunkByte s
    let s := if p4.1 < 0 then { p4.2 with eventType := ET_UNK } else p4.2
    let s := { s with eventData := { s.eventData with smpteFrames := p4.1 } }
    let p5 := MidiFileStream.readChunkByte s
    let s := if p5.1 < 0 then { p5.2 with eventType := ET_UNK } else p5.2
    let s := { s with eventData := { s.eventData with smpteF100ths := p5.1 } }
    (s.eventType, s)

/-- Meta time-signature case of `MidiFileStream::readEvent`
(MidiFileStream.cpp lines 654-713): `length` must be exactly 4, then
four bytes are read (failed reads set `ET_UNK` without returning, as in
the source).  The denominator is stored as `1 << byte` on the 16-bit
`int`; the shift is well defined in C only for shift counts `0..14`,
and is modeled by `toSigned16 (2 ^ byte)`. -/
def MidiFileStream.caseTimeSign (length : Int) (s0 : MidiFileStream) :
    Nat × MidiFileStream :=
  let s := { s0 with eventType := ET_TIME_SIGN }
  if length ≠ 4 then (ET_UNK, { s with eventType := ET_UNK })
  else
    let p1 := MidiFileStream.readChunkByte s
    let s := if p1.1 < 0 then { p1.2 with eventType := ET_UNK } else p1.2
    let s := { s with eventData := { s.eventData with timeNumer := p1.1 } }
    let p2 := MidiFileStream.readChunkByte s
    let s := if p2.1 < 0 then { p2.2 with eventType := ET_UNK } else p2.2
    let s := { s with eventData :=
      { s.eventData with timeDenom := toSigned16 ((2 : Int) ^ p2.1.toNat) } }
    let p3 := MidiFileStream.readChunkByte s
    let s := if p3.1 < 0 then { p3.2 with eventType := ET_UNK } else p3.2
    let s := { s with eventData := { s.eventData with timeMetro := p3.1 } }
    let p4 := MidiFileStream.readChunkByte s
    let s := if p4.1 < 0 then { p4.2 with eventType := ET_UNK } else p4.2
    let s := { s with eventData := { s.eventData with timeM32nds := p4.1 } }
    (s.eventType, s)

/-- Meta key-signature case of `MidiFileStream::readEvent`
(MidiFileStream.cpp lines 715-755): `length` must be exactly 2, then two
bytes are read (failed reads set `ET_UNK` without returning).  The first
byte is sign-extended: if its bit 7 is set, it is or-ed with `-0x80`. -/
def MidiFileStream.caseKeySign (length : Int) (s0 : MidiFileStream) :
    Nat × MidiFileStream :=
  let s := { s0 with eventType := ET_KEY_SIGN }
  if length ≠ 2 then (ET_UNK, { s with eventType := ET_UNK })
  else
    let p1 := MidiFileStream.readChunkByte s
    let s := if p1.1 < 0 then { p1.2 with eventType := ET_UNK } else p1.2
    let ns := if and0x80 p1.1 ≠ 0 then orNeg0x80 p1.1 else p1.1
    let s := { s with eventData := { s.eventData with keyNumSharps := ns } }
    let p2 := MidiFileStream.readChunkByte s
    let s := if p2.1 < 0 then { p2.2 with eventType := ET_UNK } else p2.2
    let s := { s with eventData := { s.eventData with keyIsMinor := p2.1 } }
    (s.eventType, s)

/-- Unknown-meta-event (default) case of `MidiFileStream::readEvent`
(MidiFileStream.cpp lines 757-775): report `ET_NO_OP` after consuming
and discarding the declared `length` bytes one by one; `ET_UNK` if a
read fails. -/
def MidiFileStream.caseMetaDefault (length : Int) (s0 : MidiFileStream) :
    Nat × MidiFileStream :=
  let s := { s0 with eventType := ET_NO_OP }
  let p := MidiFileStream.metaSkip length.toNat s
  if p.1 = false then (ET_UNK, { p.2 with eventType := ET_UNK })
  else (p.2.eventType, p.2)

/-- Sysex branch of `MidiFileStream::readEvent` (MidiFileStream.cpp
lines 287-338), entered when the event byte is `0xF0` or `0xF7`: clear
running status, decode the VLQ length, and read the payload into the
`sysexF0` or `sysexEsc` buffer. -/
def MidiFileStream.readEventSysex (bint : Int) (s0 : MidiFileStream) :
    Nat × MidiFileStream :=
  let s := { s0 with runningStatus := 0 }
  let p := MidiFileStream.readVariableLong s
  if p.1 < 0 then (ET_UNK, { p.2 with eventType := ET_UNK })
  else if bint = 0xF0 then
    let s := { p.2 with eventType := ET_SYSEX_F0 }
    let q := MidiFileStream.readVariableBytes p.1 s.eventData.sysexF0.bytes s
    let s2 := { q.2.2 with eventData :=
      { q.2.2.eventData with sysexF0 := { length := q.1, bytes := q.2.1 } } }
    if q.1 < 0 then (ET_UNK, { s2 with eventType := ET_UNK })
    else (s2.eventType, s2)
  else if bint = 0xF7 then
    let s := { p.2 with eventType := ET_SYSEX_ESC }
    let q := MidiFileStream.readVariableBytes p.1 s.eventData.sysexEsc.bytes s
    let s2 := { q.2.2 with eventData :=
      { q.2.2.eventData with sysexEsc := { length := q.1, bytes := q.2.1 } } }
    if q.1 < 0 then (ET_UNK, { s2 with eventType := ET_UNK })
    else (s2.eventType, s2)
  else (p.2.eventType, p.2)

/-- Dispatch of the meta branch of `MidiFileStream::readEvent` on the
meta type byte, mirroring the source's `switch ((char) metaType)`
(MidiFileStream.cpp lines 363-776; all case labels are below `0x80`, so
comparing the unsigned byte value is equivalent to the `char`
comparison of the source). -/
def MidiFileStream.metaDispatch (metaType length : Int)
    (s : MidiFileStream) : Nat × MidiFileStream :=
  if metaType = 0x00 then MidiFileStream.caseSeqNum length s
  else if metaType = 0x01 then
    MidiFileStream.readTextLikeMeta ET_TEXT (fun d => d.text)
      (fun d v => { d with text := v }) length s
  else if metaType = 0x02 then
    MidiFileStream.readTextLikeMeta ET_COPYRIGHT (fun d => d.copyright)
      (fun d v => { d with copyright := v }) length s
  else if metaType = 0x03 then
    MidiFileStream.readTextLikeMeta ET_NAME (fun d => d.name)
      (fun d v => { d with name := v }) length s
  else if metaType = 0x04 then
    MidiFileStream.readTextLikeMeta ET_INSTRUMENT (fun d => d.instrument)
      (fun d v => { d with instrument := v }) length s
  else if metaType = 0x05 then
    MidiFileStream.readTextLikeMeta ET_LYRIC (fun d => d.lyric)
      (fun d v => { d with lyric := v }) length s
  else if metaType = 0x06 then
    MidiFileStream.readTextLikeMeta ET_MARKER (fun d => d.marker)
      (fun d v => { d with marker := v }) length s
  else if metaType = 0x07 then
    MidiFileStream.readTextLikeMeta ET_CUE (fun d => d.cue)
      (fun d v => { d with cue := v }) length s
  else if metaType = 0x20 then MidiFileStream.caseChanPfx length s
  else if metaType = 0x2F then MidiFileStream.caseEndTrack length s
  else if metaType = 0x51 then MidiFileStream.caseTempo length s
  else if metaType = 0x54 then MidiFileStream.caseSmpteOffset length s
  else if metaType = 0x58 then MidiFileStream.caseTimeSign length s
  else if metaType = 0x59 then MidiFileStream.caseKeySign length s
  else MidiFileStream.caseMetaDefault length s

/-- Meta branch of `MidiFileStream::readEvent` (MidiFileStream.cpp lines
340-780), entered when the event byte is `0xFF`: clear running status,
read the meta type byte and the VLQ length, then dispatch on the meta
type. -/
def MidiFileStream.readEventMeta (s0 : MidiFileStream) :
    Nat × MidiFileStream :=
  let s := { s0 with runningStatus := 0 }
  let p := MidiFileStream.readChunkByte s
  if p.1 < 0 then (ET_UNK, { p.2 with eventType := ET_UNK })
  else
    let q := MidiFileStream.readVariableLong p.2
    if q.1 < 0 then (ET_UNK, { q.2 with eventType := ET_UNK })
    else MidiFileStream.metaDispatch p.1 q.1 q.2

/-- Parameter-reading tail of the channel branch of
`MidiFileStream::readEvent` (MidiFileStream.cpp lines 820-846): program
change (`0xC`) and channel aftertouch (`0xD`) have no second parameter
(stored as 0); every other code reads one more byte. -/
def MidiFileStream.channelParam2 (s : MidiFileStream) :
    Nat × MidiFileStream :=
  if s.eventData.chCode = 0xC ∨ s.eventData.chCode = 0xD then
    let s2 := { s with eventData := { s.eventData with chParam2 := 0 } }
    (s2.eventType, s2)
  else
    let p := MidiFileStream.readChunkByte s
    if p.1 < 0 then (ET_UNK, { p.2 with eventType := ET_UNK })
    else
      let s2 := { p.2 with eventData := { p.2.eventData with chParam2 := p.1 } }
      (s2.eventType, s2)

/-- Body of the channel branch of `MidiFileStream::readEvent`
(MidiFileStream.cpp lines 801-846) once the status byte `bint` and the
pushed-down first data byte `runningBint` (or `-1`) are known: store
code (`bint >> 4`, equal to `bint / 16` for the nonnegative status
values that reach here) and channel, update the running status, then
read the parameters. -/
def MidiFileStream.channelFinish (bint : Int) (runningBint : Int)
    (s0 : MidiFileStream) : Nat × MidiFileStream :=
  let s := { s0 with eventData :=
    { s0.eventData with chCode := bint / 16, chChan := and0x0F bint } }
  let s := { s with runningStatus := bint }
  if runningBint ≠ -1 then
    let s2 := { s with eventData := { s.eventData with chParam1 := runningBint } }
    MidiFileStream.channelParam2 s2
  else
    let p := MidiFileStream.readChunkByte s
    if p.1 < 0 then (ET_UNK, { p.2 with eventType := ET_UNK })
    else
      let s2 := { p.2 with eventData := { p.2.eventData with chParam1 := p.1 } }
      MidiFileStream.channelParam2 s2

/-- Channel branch of `MidiFileStream::readEvent` (MidiFileStream.cpp
lines 782-846): if the event byte's top bit is clear, it is the first
data byte and the stored running status supplies the status byte (a
protocol error if running status is inactive). -/
def MidiFileStream.readEventChannel (bint0 : Int) (s0 : MidiFileStream) :
    Nat × MidiFileStream :=
  let s := { s0 with eventType := ET_CHANNEL }
  if and0x80 bint0 = 0 then
    let bint := s.runningStatus
    if and0x80 bint = 0 then (ET_UNK, { s with eventType := ET_UNK })
    else MidiFileStream.channelFinish bint bint0 s
  else MidiFileStream.channelFinish bint0 (-1) s

/-- `MidiFileStream::readEvent` (MidiFileStream.cpp lines 258-848): read
the next event in the track.  Returns (and stores) the event type:
`ET_END` if the delta-time read fails (normal end of track), `ET_UNK`
on an error, or the decoded event's type. -/
def MidiFileStream.readEvent (s0 : MidiFileStream) : Nat × MidiFileStream :=
  let s : MidiFileStream := { s0 with eventType := ET_UNK }
  let p := MidiFileStream.readVariableLong s
  let s : MidiFileStream := { p.2 with eventDeltaTicks := p.1 }
  if s.eventDeltaTicks < 0 then (ET_END, { s with eventType := ET_END })
  else
    let q := MidiFileStream.readChunkByte s
    if q.1 < 0 then (ET_UNK, { q.2 with eventType := ET_UNK })
    else if q.1 = 0xF0 ∨ q.1 = 0xF7 then MidiFileStream.readEventSysex q.1 q.2
    else if q.1 = 0xFF then MidiFileStream.readEventMeta q.2
    else MidiFileStream.readEventChannel q.1 q.2

/-- `MidiFileStream::openChunk` (MidiFileStream.cpp lines 180-249): read
the 4-byte chunk signature directly from the underlying stream and the
4-byte big-endian chunk length through the byte-budget reader (with the
`_bytesLeft = 4` hack of the source), classify the signature, and leave
`_bytesLeft` set to the declared length.  Signature bytes are compared
as `char`s in the source; bytes `>= 0x80` cast to negative `char`s and
can never equal the ASCII signature letters, so comparing byte values is
equivalent. -/
def MidiFileStream.openChunk (s0 : MidiFileStream) : Nat × MidiFileStream :=
  let s : MidiFileStream :=
    { s0 with bytesLeft := -1, runningStatus := 0,
              eventType := ET_UNK, eventDeltaTicks := -1 }
  let r1 := MidiFileStream.streamRead s
  if r1.1 < 0 then (CT_END, r1.2)
  else
    let r2 := MidiFileStream.streamRead r1.2
    if r2.1 < 0 then (CT_UNK, r2.2)
    else
      let r3 := MidiFileStream.streamRead r2.2
      if r3.1 < 0 then (CT_UNK, r3.2)
      else
        let r4 := MidiFileStream.streamRead r3.2
        if r4.1 < 0 then (CT_UNK, r4.2)
        else
          let p := MidiFileStream.readFixedLong 4 { r4.2 with bytesLeft := 4 }
          let s : MidiFileStream := { p.2 with bytesLeft := p.1 }
          if p.1 < 0 then (CT_UNK, s)
          else if [r1.1, r2.1, r3.1, r4.1] = [77, 84, 104, 100] then (CT_MTHD, s)
          else if [r1.1, r2.1, r3.1, r4.1] = [77, 84, 114, 107] then (CT_MTRK, s)
          else (CT_UNK, s)

/-- Tail of `MidiFileStream::begin` (MidiFileStream.cpp lines 116-150):
read the three 16-bit header fields (each assigned through the AVR
16-bit `(int)` cast and rejected if negative), then require the declared
chunk content to be exhausted. -/
def MidiFileStream.beginFields (s1 : MidiFileStream) : Bool × MidiFileStream :=
  let pf := MidiFileStream.readFixedLong 2 s1
  let s : MidiFileStream := { pf.2 with format := toSigned16 pf.1 }
  if s.format < 0 then (false, s)
  else
    let pn := MidiFileStream.readFixedLong 2 s
    let s : MidiFileStream := { pn.2 with numTracks := toSigned16 pn.1 }
    if s.numTracks < 0 then (false, s)
    else
      let pt := MidiFileStream.readFixedLong 2 s
      let s : MidiFileStream := { pt.2 with ticksPerBeat := toSigned16 pt.1 }
      if s.ticksPerBeat < 0 then (false, s)
      else if s.bytesLeft > 0 then (false, s)
      else (true, s)

/-- `MidiFileStream::begin` (MidiFileStream.cpp lines 81-156):
initialize the object state on the given stream, open the first chunk,
require it to be an `MThd` chunk of declared length exactly 6, then read
the header fields via `beginFields`. -/
def MidiFileStream.begin (s0 : MidiFileStream) (data : List Nat) :
    Bool × MidiFileStream :=
  let s : MidiFileStream :=
    { s0 with stream := data, bytesLeft := -1, format := -1,
              numTracks := -1, ticksPerBeat := 0, runningStatus := 0,
              eventType := ET_UNK, eventDeltaTicks := -1 }
  let c := MidiFileStream.openChunk s
  if c.1 ≠ CT_MTHD then (false, c.2)
  else if c.2.bytesLeft ≠ 6 then (false, c.2)
  else MidiFileStream.beginFields c.2

/-- `MidiFileStream::getFormat` (MidiFileStream.cpp lines 21-23). -/
def MidiFileStream.getFormat (s : MidiFileStream) : Int := s.format

/-- `MidiFileStream::getNumTracks` (MidiFileStream.cpp lines 29-31). -/
def MidiFileStream.getNumTracks (s : MidiFileStream) : Int := s.numTracks

/-- `MidiFileStream::getTicksPerBeat` (MidiFileStream.cpp lines 36-38). -/
def MidiFileStream.getTicksPerBeat (s : MidiFileStream) : Int := s.ticksPerBeat

/-- `MidiFileStream::getChunkBytesLeft` (MidiFileStream.cpp lines 44-46). -/
def MidiFileStream.getChunkBytesLeft (s : MidiFileStream) : Int := s.bytesLeft

/-- `MidiFileStream::getEventType` (MidiFileStream.cpp lines 60-62). -/
def MidiFileStream.getEventType (s : MidiFileStream) : Nat := s.eventType

/-- `MidiFileStream::getEventDeltaTicks` (MidiFileStream.cpp lines 52-54). -/
def MidiFileStream.getEventDeltaTicks (s : MidiFileStream) : Int :=
  s.eventDeltaTicks

/-- One 7-bit group extraction step of the reference VLQ encoder:
big-endian base-128 digits of `x` (at least one digit).  The fuel of 4
supplied by `vlqGroups` is enough for every `x < 2^35`, far beyond the
`x < 2^28` range quantified over below. -/
def vlqGroupsAux : Nat → Nat → List Nat
  | 0, x => [x % 128]
  | fuel + 1, x => if x < 128 then [x] else vlqGroupsAux fuel (x / 128) ++ [x % 128]

/-- Base-128 digits of `x`, most significant first. -/
def vlqGroups (x : Nat) : List Nat := vlqGroupsAux 4 x

/-- Set the continuation bit (0x80) on every byte but the last. -/
def vlqMark : List Nat → List Nat
  | [] => []
  | [b] => [b]
  | b :: rest => (b + 128) :: vlqMark rest

/-- Reference encoder for the MIDI variable-length quantity: 7 bits per
byte, most-significant group first, continuation bit 0x80 set on every
byte except the last.  This is the standard (minimal) encoding of the
format the library reads; it is used only to state round-trip
properties of `MidiFileStream.readVariableLong`. -/
def vlqEncode (x : Nat) : List Nat := vlqMark (vlqGroups x)

/-- Declared-length contract table of the fixed-shape meta events, read
off the `switch` of `MidiFileStream::readEvent`: sequence number (0x00)
expects 2 bytes, channel prefix (0x20) 1, end of track (0x2F) 0, tempo
(0x51) 3, SMPTE offset (0x54) 5, time signature (0x58) 4, key signature
(0x59) 2.  Other meta types have no fixed length. -/
def metaFixedLength (t : Nat) : Option Nat :=
  if t = 0x00 then some 2
  else if t = 0x20 then some 1
  else if t = 0x2F then some 0
  else if t = 0x51 then some 3
  else if t = 0x54 then some 5
  else if t = 0x58 then some 4
  else if t = 0x59 then some 2
  else none

/-- An all-zero buffer struct, used to build concrete test states. -/
def DataBytes.init : DataBytes := { length := 0, bytes := fun _ => 0 }

/-- An all-zero event-data value, used to build concrete test states
(the C++ union is simply uninitialized memory at this point). -/
def EventData.init : EventData :=
  { sysexF0 := DataBytes.init, sysexEsc := DataBytes.init, seqNum := 0,
    text := DataBytes.init, copyright := DataBytes.init,
    name := DataBytes.init, instrument := DataBytes.init,
    lyric := DataBytes.init, marker := DataBytes.init, cue := DataBytes.init,
    chanPfx := 0, tempoUSecPerBeat := 0, smpteHours := 0, smpteMinutes := 0,
    smpteSeconds := 0, smpteFrames := 0, smpteF100ths := 0, timeNumer := 0,
    timeDenom := 0, timeMetro := 0, timeM32nds := 0, keyNumSharps := 0,
    keyIsMinor := 0, chCode := 0, chChan := 0, chParam1 := 0, chParam2 := 0 }

/-- A concrete decoder state: the given remaining stream, chunk byte
budget and running status, everything else zeroed as after
initialization. -/
def mkState (data : List Nat) (bl : Int) (rs : Int) : MidiFileStream :=
  { stream := data, bytesLeft := bl, format := -1, numTracks := -1,
    ticksPerBeat := 0, runningStatus := rs, eventType := ET_UNK,
    eventDeltaTicks := -1, eventData := EventData.init }

/-! Basic evaluation lemmas for the byte-level readers. -/

theorem MidiFileStream.readChunkByte_stuck (s : MidiFileStream)
    (h : s.bytesLeft ≤ 0) : MidiFileStream.readChunkByte s = (-1, s) := by
  simp [MidiFileStream.readChunkByte, h]

theorem MidiFileStream.readChunkByte_cons (s : MidiFileStream) (b : Nat)
    (rest : List Nat) (h : 0 < s.bytesLeft) (hs : s.stream = b :: rest) :
    MidiFileStream.readChunkByte s =
      ((b : Int), { s with bytesLeft := s.bytesLeft - 1, stream := rest }) := by
  rw [MidiFileStream.readChunkByte, if_neg (by omega)]
  simp [MidiFileStream.streamRead, hs]

theorem MidiFileStream.readChunkByte_nil (s : MidiFileStream)
    (h : 0 < s.bytesLeft) (hs : s.stream = []) :
    MidiFileStream.readChunkByte s =
      (-1, { s with bytesLeft := s.bytesLeft - 1 }) := by
  rw [MidiFileStream.readChunkByte, if_neg (by omega)]
  simp [MidiFileStream.streamRead, hs]

theorem and0x80_lt (d : Nat) (h : d < 128) : and0x80 (d : Int) = 0 := by
  simp only [and0x80]
  rw [if_pos]
  omega

theorem and0x80_ge (d : Nat) (h1 : 128 ≤ d) (h2 : d < 256) :
    and0x80 (d : Int) = 128 := by
  simp only [and0x80]
  rw [if_neg]
  omega

theorem and0x7F_ofNat (d : Nat) :
    and0x7F (d : Int) = ((d % 128 : Nat) : Int) := by
  simp only [and0x7F]
  omega

theorem toSigned32_small (x : Nat) (h : x < 2147483648) :
    toSigned32 x = (x : Int) := by
  simp only [toSigned32]
  rw [if_pos (by omega), Nat.mod_eq_of_lt (by omega)]

/-- Decoding one terminal (top-bit-clear) byte: a single-byte VLQ. -/
theorem MidiFileStream.rvl_single (s : MidiFileStream) (d : Nat)
    (rest : List Nat) (hd : d < 128) (hb : 0 < s.bytesLeft)
    (hs : s.stream = d :: rest) :
    MidiFileStream.readVariableLong s =
      ((d : Int), { s with bytesLeft := s.bytesLeft - 1, stream := rest }) := by
  rw [MidiFileStream.readVariableLong, MidiFileStream.rvlAux]
  rw [if_neg (by omega)]
  rw [MidiFileStream.readChunkByte_cons s d rest hb hs]
  simp only []
  rw [if_neg (by omega)]
  rw [and0x80_lt d hd]
  rw [if_neg (by omega)]
  rw [and0x7F_ofNat, Nat.mod_eq_of_lt hd]
  simp only [Int.toNat_natCast]
  rw [Nat.mod_eq_of_lt (by omega)]
  rw [toSigned32_small _ (by omega)]
  simp

/-- Big-endian base-128 value of a digit list, on top of an accumulator. -/
def digitsVal (acc : Nat) (gs : List Nat) : Nat :=
  gs.foldl (fun a b => a * 128 + b) acc

theorem digitsVal_nil (acc : Nat) : digitsVal acc [] = acc := rfl

theorem digitsVal_cons (acc b : Nat) (gs : List Nat) :
    digitsVal acc (b :: gs) = digitsVal (acc * 128 + b) gs := rfl

theorem digitsVal_le (acc : Nat) (gs : List Nat) : acc ≤ digitsVal acc gs := by
  induction gs generalizing acc with
  | nil => simp [digitsVal_nil]
  | cons b gs ih =>
    rw [digitsVal_cons]
    calc acc ≤ acc * 128 + b := by omega
    _ ≤ digitsVal (acc * 128 + b) gs := ih _

theorem vlqGroupsAux_ne_nil (fuel x : Nat) : vlqGroupsAux fuel x ≠ [] := by
  cases fuel with
  | zero => simp [vlqGroupsAux]
  | succ fuel =>
    rw [vlqGroupsAux]
    split
    · simp
    · simp

theorem vlqGroupsAux_lt (fuel x : Nat) :
    ∀ b ∈ vlqGroupsAux fuel x, b < 128 := by
  induction fuel generalizing x with
  | zero => simp [vlqGroupsAux]; omega
  | succ fuel ih =>
    rw [vlqGroupsAux]
    split
    · intro b hb
      simp at hb
      omega
    · intro b hb
      simp at hb
      rcases hb with hb | hb
      · exact ih _ b hb
      · omega

theorem vlqGroupsAux_length (fuel : Nat) :
    ∀ k x, x < 128 ^ (k + 1) → (vlqGroupsAux fuel x).length ≤ k + 1 := by
  induction fuel with
  | zero => intro k x _; simp [vlqGroupsAux]
  | succ fuel ih =>
    intro k x hx
    rw [vlqGroupsAux]
    split
    · simp
    · rename_i hge
      cases k with
      | zero => simp [pow_succ, pow_zero] at hx; omega
      | succ k =>
        have hdiv : x / 128 < 128 ^ (k + 1) := by
          rw [Nat.div_lt_iff_lt_mul (by omega)]
          calc x < 128 ^ (k + 2) := hx
          _ = 128 ^ (k + 1) * 128 := by ring
        have := ih k (x / 128) hdiv
        simp only [List.length_append, List.length_cons, List.length_nil]
        omega

theorem vlqGroupsAux_val (fuel : Nat) :
    ∀ x, x < 128 ^ (fuel + 1) → digitsVal 0 (vlqGroupsAux fuel x) = x := by
  induction fuel with
  | zero =>
    intro x hx
    simp only [vlqGroupsAux, digitsVal, List.foldl_cons, List.foldl_nil]
    simp [pow_one] at hx
    omega
  | succ fuel ih =>
    intro x hx
    rw [vlqGroupsAux]
    split
    · simp [digitsVal]
    · rename_i hge
      have hdiv : x / 128 < 128 ^ (fuel + 1) := by
        rw [Nat.div_lt_iff_lt_mul (by omega)]
        calc x < 128 ^ (fuel + 2) := hx
        _ = 128 ^ (fuel + 1) * 128 := by ring
      have hval := ih (x / 128) hdiv
      simp only [digitsVal] at hval ⊢
      rw [List.foldl_append, hval]
      simp only [List.foldl_cons, List.foldl_nil]
      omega

/-- Marking continuation bits does not change the list length. -/
theorem vlqMark_length (gs : List Nat) : (vlqMark gs).length = gs.length := by
  induction gs with
  | nil => rfl
  | cons b gs ih =>
    cases gs with
    | nil => rfl
    | cons c gs =>
      have h2 : vlqMark (b :: c :: gs) = (b + 128) :: vlqMark (c :: gs) := rfl
      rw [h2]
      simpa using ih

/-- Decoding an arbitrary marked digit list: `rvlAux` consumes exactly the
encoding and returns the accumulated value, provided the value fits and
the byte budget and loop-count budget suffice. -/
theorem MidiFileStream.rvl_decode (gs : List Nat) :
    ∀ (fuel numBytes acc : Nat) (s : MidiFileStream) (rest : List Nat),
    (∀ b ∈ gs, b < 128) → gs ≠ [] →
    numBytes + gs.length ≤ 5 → gs.length ≤ fuel →
    (gs.length : Int) ≤ s.bytesLeft →
    s.stream = vlqMark gs ++ rest →
    digitsVal acc gs < 2147483648 → acc < 2147483648 →
    MidiFileStream.rvlAux fuel numBytes acc s =
      ((digitsVal acc gs : Int),
       { s with bytesLeft := s.bytesLeft - gs.length, stream := rest }) := by
  induction gs with
  | nil => intro _ _ _ _ _ _ hne; exact absurd rfl hne
  | cons b gs ih =>
    intro fuel numBytes acc s rest hlt _ hnb hfuel hbl hs hval hacc
    have hb : b < 128 := hlt b (List.mem_cons_self b gs)
    have hfuel1 : 1 ≤ fuel := by
      have := List.length_pos.mpr (List.cons_ne_nil b gs)
      simp only [List.length_cons] at hfuel ⊢
      omega
    obtain ⟨fuel', rfl⟩ : ∃ f, fuel = f + 1 := ⟨fuel - 1, by omega⟩
    cases gs with
    | nil =>
      rw [MidiFileStream.rvlAux]
      rw [if_neg (by simp at hnb; omega)]
      rw [MidiFileStream.readChunkByte_cons s b rest
        (by simp at hbl; omega) (by simpa [vlqMark] using hs)]
      simp only []
      rw [if_neg (by omega)]
      rw [and0x80_lt b hb]
      rw [if_neg (by omega)]
      rw [and0x7F_ofNat, Nat.mod_eq_of_lt hb]
      simp only [Int.toNat_natCast]
      rw [digitsVal_cons, digitsVal_nil] at hval ⊢
      rw [Nat.mod_eq_of_lt (by omega)]
      rw [toSigned32_small _ (by omega)]
      simp
    | cons c gs' =>
      simp only [List.length_cons] at hnb hfuel hbl
      rw [MidiFileStream.rvlAux]
      rw [if_neg (by omega)]
      have hmark : s.stream = (b + 128) :: (vlqMark (c :: gs') ++ rest) := by
        rw [hs]; rfl
      rw [MidiFileStream.readChunkByte_cons s (b + 128)
        (vlqMark (c :: gs') ++ rest) (by omega) hmark]
      simp only []
      rw [if_neg (by omega)]
      rw [and0x80_ge (b + 128) (by omega) (by omega)]
      rw [if_pos rfl]
      rw [and0x7F_ofNat]
      have hmod : (b + 128) % 128 = b := by omega
      rw [hmod]
      simp only [Int.toNat_natCast]
      rw [digitsVal_cons] at hval ⊢
      have haccb : acc * 128 + b ≤ digitsVal (acc * 128 + b) (c :: gs') :=
        digitsVal_le _ _
      rw [Nat.mod_eq_of_lt (by omega)]
      rw [ih fuel' (numBytes + 1) (acc * 128 + b)
        { s with bytesLeft := s.bytesLeft - 1, stream := vlqMark (c :: gs') ++ rest }
        rest (fun b' hb' => hlt b' (List.mem_cons_of_mem b hb'))
        (List.cons_ne_nil c gs')
        (by simp only [List.length_cons]; omega)
        (by simp only [List.length_cons]; omega)
        (by simp only [List.length_cons]; omega)
        rfl hval (by omega)]
      simp only [List.length_cons]
      congr 2
      omega

/-- One continuation step of the VLQ loop: a byte with the top bit set
is accumulated and the loop continues. -/
theorem MidiFileStream.rvl_cont_step (fuel numBytes acc : Nat)
    (s : MidiFileStream) (b : Nat) (rest : List Nat) (hnb : numBytes ≤ 4)
    (hb1 : 128 ≤ b) (hb2 : b < 256) (hbl : 0 < s.bytesLeft)
    (hs : s.stream = b :: rest) :
    MidiFileStream.rvlAux (fuel + 1) numBytes acc s =
      MidiFileStream.rvlAux fuel (numBytes + 1)
        ((acc * 128 + b % 128) % 4294967296)
        { s with bytesLeft := s.bytesLeft - 1, stream := rest } := by
  rw [MidiFileStream.rvlAux, if_neg (by omega),
    MidiFileStream.readChunkByte_cons s b rest hbl hs]
  simp only []
  rw [if_neg (by omega), and0x80_ge b hb1 hb2, if_pos rfl]
  have hT : ((b : Int) % 128).toNat = b % 128 := by omega
  simp only [and0x7F, hT]

/-- C1: the VLQ decoder `readVariableLong` decodes every validly encoded
integer in `[0, 2^28-1]` back to itself, consuming exactly its encoding;
and an encoding that uses more than 4 continuation bytes — one whose
first five bytes all carry the continuation bit — is rejected with the
error value `-1` instead of a wrapped value. -/
theorem readVariableLong_vlq_roundtrip_and_overlong_rejected :
    (∀ (x : Nat) (s : MidiFileStream) (rest : List Nat),
      x < 2 ^ 28 →
      s.stream = vlqEncode x ++ rest →
      ((vlqEncode x).length : Int) ≤ s.bytesLeft →
      MidiFileStream.readVariableLong s =
        ((x : Int),
         { s with bytesLeft := s.bytesLeft - (vlqEncode x).length,
                  stream := rest })) ∧
    (∀ (s : MidiFileStream) (b1 b2 b3 b4 b5 : Nat) (rest : List Nat),
      128 ≤ b1 → b1 < 256 → 128 ≤ b2 → b2 < 256 → 128 ≤ b3 → b3 < 256 →
      128 ≤ b4 → b4 < 256 → 128 ≤ b5 → b5 < 256 →
      s.stream = b1 :: b2 :: b3 :: b4 :: b5 :: rest →
      (5 : Int) ≤ s.bytesLeft →
      (MidiFileStream.readVariableLong s).1 = -1) := by
  constructor
  · intro x s rest hx hs hbl
    have hx4 : x < 128 ^ 4 := by norm_num at hx ⊢; omega
    have hlt := vlqGroupsAux_lt 4 x
    have hne := vlqGroupsAux_ne_nil 4 x
    have hlen4 : (vlqGroups x).length ≤ 4 := vlqGroupsAux_length 4 3 x hx4
    have hval : digitsVal 0 (vlqGroups x) = x :=
      vlqGroupsAux_val 4 x (by calc x < 128 ^ 4 := hx4
                                 _ ≤ 128 ^ 5 := by norm_num)
    have hlenEq : (vlqEncode x).length = (vlqGroups x).length :=
      vlqMark_length (vlqGroups x)
    have main := MidiFileStream.rvl_decode (vlqGroups x) 6 0 0 s rest hlt hne
      (by omega) (by omega) (by rw [hlenEq] at hbl; exact hbl) hs
      (by rw [hval]; omega) (by norm_num)
    rw [MidiFileStream.readVariableLong, main, hval, hlenEq]
  · intro s b1 b2 b3 b4 b5 rest h1a h1b h2a h2b h3a h3b h4a h4b h5a h5b hs hbl
    rw [MidiFileStream.readVariableLong]
    rw [MidiFileStream.rvl_cont_step 5 0 0 s b1 _ (by omega) h1a h1b
      (by omega) hs]
    rw [MidiFileStream.rvl_cont_step 4 1 _ _ b2 _ (by omega) h2a h2b
      (show (0 : Int) < s.bytesLeft - 1 by omega) rfl]
    rw [MidiFileStream.rvl_cont_step 3 2 _ _ b3 _ (by omega) h3a h3b
      (show (0 : Int) < s.bytesLeft - 1 - 1 by omega) rfl]
    rw [MidiFileStream.rvl_cont_step 2 3 _ _ b4 _ (by omega) h4a h4b
      (show (0 : Int) < s.bytesLeft - 1 - 1 - 1 by omega) rfl]
    rw [MidiFileStream.rvl_cont_step 1 4 _ _ b5 _ (by omega) h5a h5b
      (show (0 : Int) < s.bytesLeft - 1 - 1 - 1 - 1 by omega) rfl]
    rw [MidiFileStream.rvlAux, if_pos (by omega)]

/-- Witness for the C1 theorem: the two-byte encoding of 200 decodes
back to 200 consuming both bytes, and a stream of five continuation
bytes is rejected with `-1`. -/
theorem readVariableLong_vlq_roundtrip_witness :
    MidiFileStream.readVariableLong (mkState (vlqEncode 200 ++ [7]) 10 0) =
      ((200 : Int),
       { mkState (vlqEncode 200 ++ [7]) 10 0 with
           bytesLeft := 10 - (vlqEncode 200).length, stream := [7] }) ∧
    (MidiFileStream.readVariableLong
      (mkState [0x80, 0x81, 0xFF, 0x90, 0x80, 0x00] 6 0)).1 = -1 :=
  ⟨readVariableLong_vlq_roundtrip_and_overlong_rejected.1 200
      (mkState (vlqEncode 200 ++ [7]) 10 0) [7] (by norm_num) rfl (by decide),
   readVariableLong_vlq_roundtrip_and_overlong_rejected.2
      (mkState [0x80, 0x81, 0xFF, 0x90, 0x80, 0x00] 6 0)
      0x80 0x81 0xFF 0x90 0x80 [0x00] (by norm_num) (by norm_num)
      (by norm_num) (by norm_num) (by norm_num) (by norm_num) (by norm_num)
      (by norm_num) (by norm_num) (by norm_num) rfl (by decide)⟩

/-- Successful run of the read loop of `readVariableBytes`: with enough
byte budget and stream bytes, it reads `n` bytes, stores them at
`idx, idx+1, ...`, and advances the state by exactly `n`. -/
theorem MidiFileStream.rvbRead_ok (n : Nat) :
    ∀ (idx : Nat) (buf : Nat → Nat) (s : MidiFileStream),
    (n : Int) ≤ s.bytesLeft → n ≤ s.stream.length →
    (MidiFileStream.rvbRead n idx buf s).1 = true ∧
    (MidiFileStream.rvbRead n idx buf s).2.1 = idx + n ∧
    (MidiFileStream.rvbRead n idx buf s).2.2.2 =
      { s with bytesLeft := s.bytesLeft - n, stream := s.stream.drop n } ∧
    ∀ j, (MidiFileStream.rvbRead n idx buf s).2.2.1 j =
      if idx ≤ j ∧ j < idx + n then s.stream.getD (j - idx) 0 else buf j := by
  induction n with
  | zero =>
    intro idx buf s hbl hlen
    refine ⟨rfl, rfl, by simp [MidiFileStream.rvbRead], ?_⟩
    intro j
    rw [MidiFileStream.rvbRead]
    rw [if_neg (by omega)]
  | succ n ih =>
    intro idx buf s hbl hlen
    rcases hstream : s.stream with _ | ⟨b, rest⟩
    · rw [hstream] at hlen; simp at hlen
    · have hlen' : n ≤ rest.length := by
        rw [hstream] at hlen; simp at hlen; omega
      rw [MidiFileStream.rvbRead,
        MidiFileStream.readChunkByte_cons s b rest (by omega) hstream]
      simp only []
      rw [if_neg (by omega)]
      have hT : ((b : Int)).toNat = b := by omega
      rw [hT]
      obtain ⟨h1, h2, h3, h4⟩ := ih (idx + 1) (Function.update buf idx b)
        { s with bytesLeft := s.bytesLeft - 1, stream := rest }
        (by dsimp only; omega) (by simpa using hlen')
      refine ⟨h1, by rw [h2]; omega, ?_, ?_⟩
      · rw [h3]
        dsimp only
        simp only [List.drop_succ_cons, MidiFileStream.mk.injEq, and_true,
          true_and]
        push_cast
        ring
      · intro j
        rw [h4 j]
        dsimp only
        rcases Nat.lt_trichotomy j idx with hj | hj | hj
        · rw [if_neg (by omega), if_neg (by omega),
            Function.update_noteq (by omega)]
        · subst hj
          rw [if_neg (by omega), if_pos (by omega), Function.update_same]
          simp
        · by_cases hj2 : j < idx + (n + 1)
          · rw [if_pos (by omega), if_pos (by omega)]
            obtain ⟨k, hk⟩ : ∃ k, j - idx = k + 1 := ⟨j - idx - 1, by omega⟩
            rw [hk]
            have hk2 : j - (idx + 1) = k := by omega
            rw [hk2]
            rfl
          · rw [if_neg (by omega), if_neg (by omega),
              Function.update_noteq (by omega)]

/-- Successful run of the skip loop of `readVariableBytes`: with enough
byte budget and stream bytes, it consumes exactly `n` bytes. -/
theorem MidiFileStream.rvbSkip_ok (n : Nat) :
    ∀ (s : MidiFileStream),
    (n : Int) ≤ s.bytesLeft → n ≤ s.stream.length →
    MidiFileStream.rvbSkip n s =
      (true, { s with bytesLeft := s.bytesLeft - n,
                      stream := s.stream.drop n }) := by
  induction n with
  | zero => intro s hbl hlen; simp [MidiFileStream.rvbSkip]
  | succ n ih =>
    intro s hbl hlen
    rcases hstream : s.stream with _ | ⟨b, rest⟩
    · rw [hstream] at hlen; simp at hlen
    · have hlen' : n ≤ rest.length := by
        rw [hstream] at hlen; simp at hlen; omega
      rw [MidiFileStream.rvbSkip,
        MidiFileStream.readChunkByte_cons s b rest (by omega) hstream]
      simp only []
      rw [if_neg (by omega)]
      rw [ih { s with bytesLeft := s.bytesLeft - 1, stream := rest }
        (by dsimp only; omega) (by simpa using hlen')]
      dsimp only
      simp only [List.drop_succ_cons, Prod.mk.injEq, MidiFileStream.mk.injEq,
        and_true, true_and]
      push_cast
      ring

/-- C2: for every declared length and caller buffer,
`readVariableBytes` stores at most `EV_BUFFER_SIZE - 1 = 140` payload
bytes followed by a null terminator, returns the stored (possibly
truncated) length `min declaredLength 140`, and still consumes exactly
`declaredLength` bytes from the chunk (byte budget and stream position
advance by the full declared length). -/
theorem readVariableBytes_truncation_contract
    (declaredLength : Int) (pBuffer : Nat → Nat) (s : MidiFileStream)
    (h0 : 0 ≤ declaredLength)
    (hbl : declaredLength ≤ s.bytesLeft)
    (hlen : declaredLength.toNat ≤ s.stream.length) :
    (MidiFileStream.readVariableBytes declaredLength pBuffer s).1 =
      ((min declaredLength.toNat 140 : Nat) : Int) ∧
    (MidiFileStream.readVariableBytes declaredLength pBuffer s).2.2 =
      { s with bytesLeft := s.bytesLeft - declaredLength,
               stream := s.stream.drop declaredLength.toNat } ∧
    (∀ j, j < min declaredLength.toNat 140 →
      (MidiFileStream.readVariableBytes declaredLength pBuffer s).2.1 j =
        s.stream.getD j 0) ∧
    (MidiFileStream.readVariableBytes declaredLength pBuffer s).2.1
      (min declaredLength.toNat 140) = 0 ∧
    (∀ j, min declaredLength.toNat 140 < j →
      (MidiFileStream.readVariableBytes declaredLength pBuffer s).2.1 j =
        pBuffer j) := by
  have hEB : EV_BUFFER_SIZE - 1 = (140 : Int) := by decide
  simp only [MidiFileStream.readVariableBytes, hEB]
  set T : Int := if 140 < declaredLength then (140 : Int) else declaredLength
    with hT
  have hTge : 0 ≤ T := by rw [hT]; split_ifs <;> omega
  have hTle : T ≤ declaredLength := by rw [hT]; split_ifs <;> omega
  have hTtoNat : T.toNat = min declaredLength.toNat 140 := by
    rw [hT]; split_ifs <;> omega
  obtain ⟨h1, h2, h3, h4⟩ := MidiFileStream.rvbRead_ok T.toNat 0
    (Function.update pBuffer 0 0) s (by omega) (by omega)
  rw [if_neg (by simp [h1])]
  rw [h2, h3]
  have hskip := MidiFileStream.rvbSkip_ok (declaredLength - T).toNat
    { s with bytesLeft := s.bytesLeft - (T.toNat : Int),
             stream := s.stream.drop T.toNat }
    (by dsimp only; omega)
    (by dsimp only; rw [List.length_drop]; omega)
  rw [hskip]
  rw [if_neg (by simp)]
  dsimp only
  refine ⟨by rw [← hTtoNat]; omega, ?_, ?_, ?_, ?_⟩
  · rw [List.drop_drop]
    simp only [MidiFileStream.mk.injEq, and_true, true_and]
    constructor
    · congr 1
      omega
    · omega
  · intro j hj
    rw [Function.update_noteq (by omega)]
    rw [h4 j]
    rw [if_pos (by omega)]
    rw [Nat.sub_zero]
  · rw [← hTtoNat]
    have hz : 0 + T.toNat = T.toNat := Nat.zero_add _
    rw [hz, Function.update_same]
  · intro j hj
    rw [Function.update_noteq (by omega)]
    rw [h4 j]
    rw [if_neg (by omega)]
    rw [Function.update_noteq (by omega)]

set_option maxRecDepth 4000 in
/-- Witness for the C2 theorem: a declared length of 200 against the
141-byte buffer stores 140 payload bytes (the first stored byte is the
first stream byte) plus a null terminator at index 140, reports stored
length 140, and consumes all 200 bytes of budget and stream. -/
theorem readVariableBytes_truncation_witness :
    (MidiFileStream.readVariableBytes 200 (fun _ => 7)
      (mkState (List.replicate 200 65) 300 0)).1 = 140 ∧
    (MidiFileStream.readVariableBytes 200 (fun _ => 7)
      (mkState (List.replicate 200 65) 300 0)).2.1 140 = 0 ∧
    (MidiFileStream.readVariableBytes 200 (fun _ => 7)
      (mkState (List.replicate 200 65) 300 0)).2.1 0 = 65 ∧
    (MidiFileStream.readVariableBytes 200 (fun _ => 7)
      (mkState (List.replicate 200 65) 300 0)).2.2.bytesLeft = 100 ∧
    (MidiFileStream.readVariableBytes 200 (fun _ => 7)
      (mkState (List.replicate 200 65) 300 0)).2.2.stream = [] := by
  obtain ⟨ha, hb, hc, hd, he⟩ := readVariableBytes_truncation_contract 200
    (fun _ => 7) (mkState (List.replicate 200 65) 300 0) (by norm_num)
    (by decide) (by simp [mkState])
  refine ⟨by simpa using ha, by simpa using hd, ?_, ?_, ?_⟩
  · have := hc 0 (by norm_num)
    simpa [mkState] using this
  · rw [hb]
    norm_num [mkState]
  · rw [hb]
    simp [mkState]

/-- A variable-length read with the byte budget already exhausted fails
immediately with `-1` and leaves the state untouched. -/
theorem MidiFileStream.rvl_stuck (s : MidiFileStream)
    (h : s.bytesLeft ≤ 0) :
    MidiFileStream.readVariableLong s = (-1, s) := by
  rw [MidiFileStream.readVariableLong, MidiFileStream.rvlAux,
    if_neg (by omega), MidiFileStream.readChunkByte_stuck s h]
  simp only []
  rw [if_pos (by norm_num)]

/-- C3: calling `readEvent` when the chunk byte budget is already 0
returns `ET_END`, which is a value distinct from `ET_END_TRACK`; the
meta End-of-Track event `FF 2F 00` instead decodes as a normal event of
kind `ET_END_TRACK`, and when the chunk length matches exactly, the
next `readEvent` call returns `ET_END`. -/
theorem readEvent_budget_zero_vs_meta_end_track :
    (∀ s : MidiFileStream, s.bytesLeft = 0 →
      (MidiFileStream.readEvent s).1 = ET_END) ∧
    ET_END ≠ ET_END_TRACK ∧
    (MidiFileStream.readEvent (mkState [0x00, 0xFF, 0x2F, 0x00] 4 0)).1 =
      ET_END_TRACK ∧
    (MidiFileStream.readEvent
      (MidiFileStream.readEvent (mkState [0x00, 0xFF, 0x2F, 0x00] 4 0)).2).1 =
      ET_END := by
  refine ⟨?_, by decide, by decide, by decide⟩
  intro s hbl
  simp only [MidiFileStream.readEvent]
  rw [MidiFileStream.rvl_stuck { s with eventType := ET_UNK }
    (by dsimp only; omega)]
  dsimp only
  rw [if_pos (by norm_num)]

/-- Witness for the C3 theorem: a state with budget 0 returns `ET_END`
from `readEvent`. -/
theorem readEvent_budget_zero_witness :
    (MidiFileStream.readEvent (mkState [0x90, 0x40, 0x7F] 0 0)).1 = ET_END :=
  readEvent_budget_zero_vs_meta_end_track.1 (mkState [0x90, 0x40, 0x7F] 0 0)
    rfl

/-- Setting `_eventType` does not affect `readChunkByte`: the read
commutes with the field update. -/
theorem MidiFileStream.readChunkByte_set_eventType (s : MidiFileStream)
    (e : Nat) :
    MidiFileStream.readChunkByte { s with eventType := e } =
      ((MidiFileStream.readChunkByte s).1,
       { (MidiFileStream.readChunkByte s).2 with eventType := e }) := by
  simp only [MidiFileStream.readChunkByte]
  split
  · rfl
  · simp only [MidiFileStream.streamRead]
    rcases s.stream with _ | ⟨b, rest⟩
    · rfl
    · rfl

/-- Setting `_eventType` does not affect the VLQ loop: decoding
commutes with the field update. -/
theorem MidiFileStream.rvlAux_set_eventType (fuel : Nat) :
    ∀ (numBytes resultU : Nat) (s : MidiFileStream) (e : Nat),
    MidiFileStream.rvlAux fuel numBytes resultU { s with eventType := e } =
      ((MidiFileStream.rvlAux fuel numBytes resultU s).1,
       { (MidiFileStream.rvlAux fuel numBytes resultU s).2 with
           eventType := e }) := by
  induction fuel with
  | zero => intro numBytes resultU s e; rfl
  | succ fuel ih =>
    intro numBytes resultU s e
    simp only [MidiFileStream.rvlAux]
    split
    · rfl
    · rw [MidiFileStream.readChunkByte_set_eventType]
      dsimp only
      split
      · rfl
      · split
        · rw [ih]
        · rfl

/-- Setting `_eventType` does not affect `readVariableLong`. -/
theorem MidiFileStream.rvl_set_eventType (s : MidiFileStream) (e : Nat) :
    MidiFileStream.readVariableLong { s with eventType := e } =
      ((MidiFileStream.readVariableLong s).1,
       { (MidiFileStream.readVariableLong s).2 with eventType := e }) :=
  MidiFileStream.rvlAux_set_eventType 6 0 0 s e

/-- C4: every failure of the initial delta-time decode in `readEvent` —
byte budget already 0, chunk exhaustion partway through the delta-time
VLQ, an over-long VLQ that `readVariableLong` rejects, and a five-byte
VLQ that wraps to a negative 32-bit value — is reported as `ET_END`,
the same value as a normal end of track; no distinct corrupt-file error
is surfaced from the delta-time position. -/
theorem readEvent_delta_failures_all_ET_END :
    (∀ s : MidiFileStream, (MidiFileStream.readVariableLong s).1 < 0 →
      (MidiFileStream.readEvent s).1 = ET_END) ∧
    (MidiFileStream.readEvent (mkState [0x90, 0x40] 0 0)).1 = ET_END ∧
    (MidiFileStream.readEvent (mkState [0x80] 1 0)).1 = ET_END ∧
    (MidiFileStream.readEvent
      (mkState [0x80, 0x80, 0x80, 0x80, 0x80, 0x00] 6 0)).1 = ET_END ∧
    (MidiFileStream.readEvent
      (mkState [0xFF, 0xFF, 0xFF, 0xFF, 0x7F, 0x00, 0x00] 7 0)).1 =
      ET_END := by
  refine ⟨?_, by decide, by decide, by decide, by decide⟩
  intro s hneg
  simp only [MidiFileStream.readEvent]
  rw [MidiFileStream.rvl_set_eventType]
  dsimp only
  rw [if_pos hneg]

/-- Witness for the C4 theorem: a truncated delta-time VLQ (a
continuation byte with only one byte of budget) makes `readEvent`
return `ET_END`. -/
theorem readEvent_delta_failure_witness :
    (MidiFileStream.readEvent (mkState [0x80] 1 0)).1 = ET_END :=
  readEvent_delta_failures_all_ET_END.1 (mkState [0x80] 1 0) (by decide)

/-- C5: running-status reuse.  After a channel-voice event with an
explicit status byte, a following event whose first byte has the top
bit clear decodes as a channel event with the same opcode and channel
as the stored running status, `param1` equal to that first byte and
`param2` equal to the next byte (for the two-parameter opcodes), and
the status byte used remains the running status afterwards; concretely,
`[0x90,0x40,0x7F]` followed by `[0x41,0x00]` decodes the second event
as note-on with the same channel, `param1 = 0x41`, `param2 = 0x00`. -/
theorem readEvent_running_status_reuse :
    (∀ (s : MidiFileStream) (d b1 b2 : Nat) (rest : List Nat),
      d < 128 → b1 < 128 →
      (128 : Int) ≤ s.runningStatus → s.runningStatus < 240 →
      s.runningStatus / 16 ≠ 12 → s.runningStatus / 16 ≠ 13 →
      s.stream = d :: b1 :: b2 :: rest → (3 : Int) ≤ s.bytesLeft →
      MidiFileStream.readEvent s =
        (ET_CHANNEL,
         { s with
             stream := rest,
             bytesLeft := s.bytesLeft - 3,
             runningStatus := s.runningStatus,
             eventType := ET_CHANNEL,
             eventDeltaTicks := (d : Int),
             eventData := { s.eventData with
               chCode := s.runningStatus / 16,
               chChan := and0x0F s.runningStatus,
               chParam1 := (b1 : Int),
               chParam2 := (b2 : Int) } })) ∧
    ((MidiFileStream.readEvent
        (mkState [0, 0x90, 0x40, 0x7F, 0, 0x41, 0x00] 7 0)).1 = ET_CHANNEL ∧
      (MidiFileStream.readEvent
        (mkState [0, 0x90, 0x40, 0x7F, 0, 0x41, 0x00] 7 0)).2.runningStatus =
        0x90 ∧
      (MidiFileStream.readEvent
        (MidiFileStream.readEvent
          (mkState [0, 0x90, 0x40, 0x7F, 0, 0x41, 0x00] 7 0)).2).1 =
        ET_CHANNEL ∧
      (MidiFileStream.readEvent
        (MidiFileStream.readEvent
          (mkState [0, 0x90, 0x40, 0x7F, 0, 0x41, 0x00] 7 0)).2).2.eventData.chCode
        = 0x9 ∧
      (MidiFileStream.readEvent
        (MidiFileStream.readEvent
          (mkState [0, 0x90, 0x40, 0x7F, 0, 0x41, 0x00] 7 0)).2).2.eventData.chChan
        = 0 ∧
      (MidiFileStream.readEvent
        (MidiFileStream.readEvent
          (mkState [0, 0x90, 0x40, 0x7F, 0, 0x41, 0x00] 7 0)).2).2.eventData.chParam1
        = 0x41 ∧
      (MidiFileStream.readEvent
        (MidiFileStream.readEvent
          (mkState [0, 0x90, 0x40, 0x7F, 0, 0x41, 0x00] 7 0)).2).2.eventData.chParam2
        = 0x00 ∧
      (MidiFileStream.readEvent
        (MidiFileStream.readEvent
          (mkState [0, 0x90, 0x40, 0x7F, 0, 0x41, 0x00] 7 0)).2).2.runningStatus
        = 0x90) := by
  constructor
  · intro s d b1 b2 rest hd hb1 hrs1 hrs2 hcC hcD hs hbl
    obtain ⟨st, bl, fmt, nt, tpb, rs, et, dt, ed⟩ := s
    dsimp only at hrs1 hrs2 hcC hcD hs hbl ⊢
    subst hs
    simp only [MidiFileStream.readEvent]
    rw [MidiFileStream.rvl_single
      (⟨d :: b1 :: b2 :: rest, bl, fmt, nt, tpb, rs, ET_UNK, dt, ed⟩ :
        MidiFileStream) d (b1 :: b2 :: rest) hd (by dsimp only; omega) rfl]
    try dsimp only
    rw [if_neg (by omega)]
    rw [MidiFileStream.readChunkByte_cons
      (⟨b1 :: b2 :: rest, bl - 1, fmt, nt, tpb, rs, ET_UNK, (d : Int), ed⟩ :
        MidiFileStream) b1 (b2 :: rest) (by dsimp only; omega) rfl]
    try dsimp only
    rw [if_neg (by omega), if_neg (by omega), if_neg (by omega)]
    simp only [MidiFileStream.readEventChannel]
    try dsimp only
    rw [and0x80_lt b1 hb1, if_pos rfl]
    rw [if_neg (by simp only [and0x80]; split_ifs <;> omega)]
    simp only [MidiFileStream.channelFinish]
    try dsimp only
    rw [if_pos (by omega)]
    simp only [MidiFileStream.channelParam2]
    try dsimp only
    rw [if_neg (by omega)]
    rw [MidiFileStream.readChunkByte_cons
      (⟨b2 :: rest, bl - 1 - 1, fmt, nt, tpb, rs, ET_CHANNEL, (d : Int),
        { ed with chCode := rs / 16, chChan := and0x0F rs,
                  chParam1 := (b1 : Int) }⟩ : MidiFileStream) b2 rest
      (by dsimp only; omega) rfl]
    try dsimp only
    rw [if_neg (by omega)]
    simp only [MidiFileStream.mk.injEq, Prod.mk.injEq, EventData.mk.injEq,
      and_true, true_and]
    omega
  · refine ⟨by decide, by decide, by decide, by decide, by decide,
      by decide, by decide, by decide⟩

/-- Witness for the C5 theorem: with running status `0x90` stored, the
event bytes `[0x41, 0x00]` (after a zero delta-time) decode as a
note-on on channel 0 with `param1 = 0x41`, `param2 = 0`. -/
theorem readEvent_running_status_reuse_witness :
    MidiFileStream.readEvent (mkState [0x00, 0x41, 0x00] 3 0x90) =
      (ET_CHANNEL,
       { mkState [0x00, 0x41, 0x00] 3 0x90 with
           stream := [],
           bytesLeft := (mkState [0x00, 0x41, 0x00] 3 0x90).bytesLeft - 3,
           runningStatus :=
             (mkState [0x00, 0x41, 0x00] 3 0x90).runningStatus,
           eventType := ET_CHANNEL,
           eventDeltaTicks := ((0x00 : Nat) : Int),
           eventData :=
             { (mkState [0x00, 0x41, 0x00] 3 0x90).eventData with
                 chCode :=
                   (mkState [0x00, 0x41, 0x00] 3 0x90).runningStatus / 16,
                 chChan :=
                   and0x0F (mkState [0x00, 0x41, 0x00] 3 0x90).runningStatus,
                 chParam1 := ((0x41 : Nat) : Int),
                 chParam2 := ((0x00 : Nat) : Int) } }) :=
  readEvent_running_status_reuse.1 (mkState [0x00, 0x41, 0x00] 3 0x90)
    0x00 0x41 0x00 [] (by norm_num) (by norm_num) (by decide) (by decide)
    (by decide) (by decide) rfl (by decide)

/-! Preservation of `_runningStatus` by the byte-level readers and the
meta payload decoders: only the channel branch of `readEvent` writes a
nonzero running status. -/

theorem MidiFileStream.readChunkByte_rs (s : MidiFileStream) :
    (MidiFileStream.readChunkByte s).2.runningStatus = s.runningStatus := by
  simp only [MidiFileStream.readChunkByte]
  split
  · rfl
  · simp only [MidiFileStream.streamRead]
    rcases s.stream with _ | ⟨b, rest⟩
    · rfl
    · rfl

theorem MidiFileStream.readFixedLongAux_rs (n : Nat) :
    ∀ (resultU : Nat) (s : MidiFileStream),
    (MidiFileStream.readFixedLongAux n resultU s).2.runningStatus =
      s.runningStatus := by
  induction n with
  | zero => intro resultU s; rfl
  | succ n ih =>
    intro resultU s
    simp only [MidiFileStream.readFixedLongAux]
    split
    · exact MidiFileStream.readChunkByte_rs s
    · rw [ih]
      exact MidiFileStream.readChunkByte_rs s

theorem MidiFileStream.readFixedLong_rs (n : Nat) (s : MidiFileStream) :
    (MidiFileStream.readFixedLong n s).2.runningStatus = s.runningStatus :=
  MidiFileStream.readFixedLongAux_rs n 0 s

theorem MidiFileStream.rvlAux_rs (fuel : Nat) :
    ∀ (numBytes resultU : Nat) (s : MidiFileStream),
    (MidiFileStream.rvlAux fuel numBytes resultU s).2.runningStatus =
      s.runningStatus := by
  induction fuel with
  | zero => intro numBytes resultU s; rfl
  | succ fuel ih =>
    intro numBytes resultU s
    simp only [MidiFileStream.rvlAux]
    split
    · rfl
    · split
      · exact MidiFileStream.readChunkByte_rs s
      · split
        · rw [ih]
          exact MidiFileStream.readChunkByte_rs s
        · exact MidiFileStream.readChunkByte_rs s

theorem MidiFileStream.readVariableLong_rs (s : MidiFileStream) :
    (MidiFileStream.readVariableLong s).2.runningStatus = s.runningStatus :=
  MidiFileStream.rvlAux_rs 6 0 0 s

theorem MidiFileStream.rvbRead_rs (n : Nat) :
    ∀ (idx : Nat) (buf : Nat → Nat) (s : MidiFileStream),
    (MidiFileStream.rvbRead n idx buf s).2.2.2.runningStatus =
      s.runningStatus := by
  induction n with
  | zero => intro idx buf s; rfl
  | succ n ih =>
    intro idx buf s
    simp only [MidiFileStream.rvbRead]
    split
    · exact MidiFileStream.readChunkByte_rs s
    · rw [ih]
      exact MidiFileStream.readChunkByte_rs s

theorem MidiFileStream.rvbSkip_rs (n : Nat) :
    ∀ (s : MidiFileStream),
    (MidiFileStream.rvbSkip n s).2.runningStatus = s.runningStatus := by
  induction n with
  | zero => intro s; rfl
  | succ n ih =>
    intro s
    simp only [MidiFileStream.rvbSkip]
    split
    · exact MidiFileStream.readChunkByte_rs s
    · rw [ih]
      exact MidiFileStream.readChunkByte_rs s

theorem MidiFileStream.metaSkip_rs (n : Nat) :
    ∀ (s : MidiFileStream),
    (MidiFileStream.metaSkip n s).2.runningStatus = s.runningStatus := by
  induction n with
  | zero => intro s; rfl
  | succ n ih =>
    intro s
    simp only [MidiFileStream.metaSkip]
    split
    · exact MidiFileStream.readChunkByte_rs s
    · rw [ih]
      exact MidiFileStream.readChunkByte_rs s

theorem MidiFileStream.readVariableBytes_rs (length : Int)
    (pBuffer : Nat → Nat) (s : MidiFileStream) :
    (MidiFileStream.readVariableBytes length pBuffer s).2.2.runningStatus =
      s.runningStatus := by
  simp only [MidiFileStream.readVariableBytes]
  split_ifs <;>
    simp [MidiFileStream.rvbRead_rs, MidiFileStream.rvbSkip_rs]

theorem MidiFileStream.caseSeqNum_rs (length : Int) (s : MidiFileStream) :
    (MidiFileStream.caseSeqNum length s).2.runningStatus =
      s.runningStatus := by
  simp only [MidiFileStream.caseSeqNum]
  split_ifs <;> simp [MidiFileStream.readFixedLong_rs]

theorem MidiFileStream.readTextLikeMeta_rs (et : Nat)
    (readBuf : EventData → DataBytes)
    (store : EventData → DataBytes → EventData) (length : Int)
    (s : MidiFileStream) :
    (MidiFileStream.readTextLikeMeta et readBuf store length s).2.runningStatus
      = s.runningStatus := by
  simp only [MidiFileStream.readTextLikeMeta]
  split_ifs <;> simp [MidiFileStream.readVariableBytes_rs]

theorem MidiFileStream.caseChanPfx_rs (length : Int) (s : MidiFileStream) :
    (MidiFileStream.caseChanPfx length s).2.runningStatus =
      s.runningStatus := by
  simp only [MidiFileStream.caseChanPfx]
  split_ifs <;> simp [MidiFileStream.readChunkByte_rs]

theorem MidiFileStream.caseEndTrack_rs (length : Int) (s : MidiFileStream) :
    (MidiFileStream.caseEndTrack length s).2.runningStatus =
      s.runningStatus := by
  simp only [MidiFileStream.caseEndTrack]
  split_ifs <;> rfl

theorem MidiFileStream.caseTempo_rs (length : Int) (s : MidiFileStream) :
    (MidiFileStream.caseTempo length s).2.runningStatus =
      s.runningStatus := by
  simp only [MidiFileStream.caseTempo]
  split_ifs <;> simp [MidiFileStream.readFixedLong_rs]

theorem MidiFileStream.caseSmpteOffset_rs (length : Int)
    (s : MidiFileStream) :
    (MidiFileStream.caseSmpteOffset length s).2.runningStatus =
      s.runningStatus := by
  by_cases h : length ≠ 5
  · rw [MidiFileStream.caseSmpteOffset, if_pos h]
  · rw [MidiFileStream.caseSmpteOffset, if_neg h]
    simp only [apply_ite MidiFileStream.runningStatus,
      MidiFileStream.readChunkByte_rs, ite_self]

theorem MidiFileStream.caseTimeSign_rs (length : Int)
    (s : MidiFileStream) :
    (MidiFileStream.caseTimeSign length s).2.runningStatus =
      s.runningStatus := by
  by_cases h : length ≠ 4
  · rw [MidiFileStream.caseTimeSign, if_pos h]
  · rw [MidiFileStream.caseTimeSign, if_neg h]
    simp only [apply_ite MidiFileStream.runningStatus,
      MidiFileStream.readChunkByte_rs, ite_self]

theorem MidiFileStream.caseKeySign_rs (length : Int)
    (s : MidiFileStream) :
    (MidiFileStream.caseKeySign length s).2.runningStatus =
      s.runningStatus := by
  by_cases h : length ≠ 2
  · rw [MidiFileStream.caseKeySign, if_pos h]
  · rw [MidiFileStream.caseKeySign, if_neg h]
    simp only [apply_ite MidiFileStream.runningStatus,
      MidiFileStream.readChunkByte_rs, ite_self]

theorem MidiFileStream.caseMetaDefault_rs (length : Int)
    (s : MidiFileStream) :
    (MidiFileStream.caseMetaDefault length s).2.runningStatus =
      s.runningStatus := by
  simp only [MidiFileStream.caseMetaDefault]
  split_ifs <;> simp [MidiFileStream.metaSkip_rs]

/-- Any sysex event (`0xF0`/`0xF7`) leaves the running status cleared
to 0, on every path through the sysex branch. -/
theorem MidiFileStream.readEventSysex_rs0 (bint : Int)
    (s : MidiFileStream) :
    (MidiFileStream.readEventSysex bint s).2.runningStatus = 0 := by
  simp only [MidiFileStream.readEventSysex]
  split_ifs <;>
    simp [MidiFileStream.readVariableBytes_rs,
      MidiFileStream.readVariableLong_rs]

/-- The meta-type dispatch preserves the running status (every meta
case only reads payload bytes and writes event data). -/
theorem MidiFileStream.metaDispatch_rs (metaType length : Int)
    (s : MidiFileStream) :
    (MidiFileStream.metaDispatch metaType length s).2.runningStatus =
      s.runningStatus := by
  delta MidiFileStream.metaDispatch
  rcases eq_or_ne metaType 0 with h0 | h0
  · rw [if_pos h0]
    exact MidiFileStream.caseSeqNum_rs _ _
  · rw [if_neg h0]
    rcases eq_or_ne metaType 1 with h1 | h1
    · rw [if_pos h1]
      exact MidiFileStream.readTextLikeMeta_rs _ _ _ _ _
    · rw [if_neg h1]
      rcases eq_or_ne metaType 2 with h2 | h2
      · rw [if_pos h2]
        exact MidiFileStream.readTextLikeMeta_rs _ _ _ _ _
      · rw [if_neg h2]
        rcases eq_or_ne metaType 3 with h3 | h3
        · rw [if_pos h3]
          exact MidiFileStream.readTextLikeMeta_rs _ _ _ _ _
        · rw [if_neg h3]
          rcases eq_or_ne metaType 4 with h4 | h4
          · rw [if_pos h4]
            exact MidiFileStream.readTextLikeMeta_rs _ _ _ _ _
          · rw [if_neg h4]
            rcases eq_or_ne metaType 5 with h5 | h5
            · rw [if_pos h5]
              exact MidiFileStream.readTextLikeMeta_rs _ _ _ _ _
            · rw [if_neg h5]
              rcases eq_or_ne metaType 6 with h6 | h6
              · rw [if_pos h6]
                exact MidiFileStream.readTextLikeMeta_rs _ _ _ _ _
              · rw [if_neg h6]
                rcases eq_or_ne metaType 7 with h7 | h7
                · rw [if_pos h7]
                  exact MidiFileStream.readTextLikeMeta_rs _ _ _ _ _
                · rw [if_neg h7]
                  rcases eq_or_ne metaType 32 with h8 | h8
                  · rw [if_pos h8]
                    exact MidiFileStream.caseChanPfx_rs _ _
                  · rw [if_neg h8]
                    rcases eq_or_ne metaType 47 with h9 | h9
                    · rw [if_pos h9]
                      exact MidiFileStream.caseEndTrack_rs _ _
                    · rw [if_neg h9]
                      rcases eq_or_ne metaType 81 with h10 | h10
                      · rw [if_pos h10]
                        exact MidiFileStream.caseTempo_rs _ _
                      · rw [if_neg h10]
                        rcases eq_or_ne metaType 84 with h11 | h11
                        · rw [if_pos h11]
                          exact MidiFileStream.caseSmpteOffset_rs _ _
                        · rw [if_neg h11]
                          rcases eq_or_ne metaType 88 with h12 | h12
                          · rw [if_pos h12]
                            exact MidiFileStream.caseTimeSign_rs _ _
                          · rw [if_neg h12]
                            rcases eq_or_ne metaType 89 with h13 | h13
                            · rw [if_pos h13]
                              exact MidiFileStream.caseKeySign_rs _ _
                            · rw [if_neg h13]
                              exact MidiFileStream.caseMetaDefault_rs _ _

set_option maxHeartbeats 1000000 in
/-- Any meta event (`0xFF`) leaves the running status cleared to 0, on
every path through the meta branch. -/
theorem MidiFileStream.readEventMeta_rs0 (s : MidiFileStream) :
    (MidiFileStream.readEventMeta s).2.runningStatus = 0 := by
  simp only [MidiFileStream.readEventMeta]
  split
  · simp only [MidiFileStream.readChunkByte_rs]
  · split
    · simp only [MidiFileStream.readVariableLong_rs,
        MidiFileStream.readChunkByte_rs]
    · rw [MidiFileStream.metaDispatch_rs]
      simp only [MidiFileStream.readVariableLong_rs,
        MidiFileStream.readChunkByte_rs]

/-- C6: meta events (first byte `0xFF`) and sysex events
(`0xF0`/`0xF7`) clear the running status, and a subsequent channel
event whose first byte has the top bit clear then fails with `ET_UNK`
("running status used, but not active"); concretely, `[0x90,0x40,0x7F]`
then `[0xFF,0x01,0x00]` then `[0x41,0x00]` makes the third `readEvent`
fail. -/
theorem readEvent_meta_sysex_clear_running_status :
    (∀ (s : MidiFileStream) (d b : Nat) (rest : List Nat),
      d < 128 → (b = 0xFF ∨ b = 0xF0 ∨ b = 0xF7) →
      s.stream = d :: b :: rest → (2 : Int) ≤ s.bytesLeft →
      (MidiFileStream.readEvent s).2.runningStatus = 0) ∧
    (∀ (s : MidiFileStream) (d b1 : Nat) (rest : List Nat),
      d < 128 → b1 < 128 → and0x80 s.runningStatus = 0 →
      s.stream = d :: b1 :: rest → (2 : Int) ≤ s.bytesLeft →
      (MidiFileStream.readEvent s).1 = ET_UNK) ∧
    ((MidiFileStream.readEvent
        (mkState [0, 0x90, 0x40, 0x7F, 0, 0xFF, 0x01, 0x00, 0, 0x41, 0x00]
          11 0)).1 = ET_CHANNEL ∧
      (MidiFileStream.readEvent
        (MidiFileStream.readEvent
          (mkState [0, 0x90, 0x40, 0x7F, 0, 0xFF, 0x01, 0x00, 0, 0x41, 0x00]
            11 0)).2).1 = ET_TEXT ∧
      (MidiFileStream.readEvent
        (MidiFileStream.readEvent
          (mkState [0, 0x90, 0x40, 0x7F, 0, 0xFF, 0x01, 0x00, 0, 0x41, 0x00]
            11 0)).2).2.runningStatus = 0 ∧
      (MidiFileStream.readEvent
        (MidiFileStream.readEvent
          (MidiFileStream.readEvent
            (mkState [0, 0x90, 0x40, 0x7F, 0, 0xFF, 0x01, 0x00, 0, 0x41,
              0x00] 11 0)).2).2).1 = ET_UNK) := by
  refine ⟨?_, ?_, by decide, by decide, by decide, by decide⟩
  · intro s d b rest hd hb hs hbl
    obtain ⟨st, bl, fmt, nt, tpb, rs, et, dt, ed⟩ := s
    dsimp only at hs hbl ⊢
    subst hs
    simp only [MidiFileStream.readEvent]
    rw [MidiFileStream.rvl_single
      (⟨d :: b :: rest, bl, fmt, nt, tpb, rs, ET_UNK, dt, ed⟩ :
        MidiFileStream) d (b :: rest) hd (by dsimp only; omega) rfl]
    try dsimp only
    rw [if_neg (by omega)]
    rw [MidiFileStream.readChunkByte_cons
      (⟨b :: rest, bl - 1, fmt, nt, tpb, rs, ET_UNK, (d : Int), ed⟩ :
        MidiFileStream) b rest (by dsimp only; omega) rfl]
    try dsimp only
    rcases hb with hb | hb | hb <;> subst hb
    · rw [if_neg (by omega), if_neg (by omega), if_pos (by norm_num)]
      exact MidiFileStream.readEventMeta_rs0 _
    · rw [if_neg (by omega), if_pos (by norm_num)]
      exact MidiFileStream.readEventSysex_rs0 _ _
    · rw [if_neg (by omega), if_pos (by norm_num)]
      exact MidiFileStream.readEventSysex_rs0 _ _
  · intro s d b1 rest hd hb1 hrs hs hbl
    obtain ⟨st, bl, fmt, nt, tpb, rs, et, dt, ed⟩ := s
    dsimp only at hrs hs hbl ⊢
    subst hs
    simp only [MidiFileStream.readEvent]
    rw [MidiFileStream.rvl_single
      (⟨d :: b1 :: rest, bl, fmt, nt, tpb, rs, ET_UNK, dt, ed⟩ :
        MidiFileStream) d (b1 :: rest) hd (by dsimp only; omega) rfl]
    try dsimp only
    rw [if_neg (by omega)]
    rw [MidiFileStream.readChunkByte_cons
      (⟨b1 :: rest, bl - 1, fmt, nt, tpb, rs, ET_UNK, (d : Int), ed⟩ :
        MidiFileStream) b1 rest (by dsimp only; omega) rfl]
    try dsimp only
    rw [if_neg (by omega), if_neg (by omega), if_neg (by omega)]
    simp only [MidiFileStream.readEventChannel]
    try dsimp only
    rw [and0x80_lt b1 hb1, if_pos rfl]
    rw [if_pos hrs]

/-- Witness for the C6 theorem: a meta event clears the stored running
status `0x90` to 0, and with running status inactive a top-bit-clear
event byte fails with `ET_UNK`. -/
theorem readEvent_clear_running_status_witness :
    (MidiFileStream.readEvent
      (mkState [0x00, 0xFF] 2 0x90)).2.runningStatus = 0 ∧
    (MidiFileStream.readEvent (mkState [0x00, 0x41] 2 0)).1 = ET_UNK :=
  ⟨readEvent_meta_sysex_clear_running_status.1 (mkState [0x00, 0xFF] 2 0x90)
      0 0xFF [] (by norm_num) (Or.inl rfl) rfl (by decide),
   readEvent_meta_sysex_clear_running_status.2.1 (mkState [0x00, 0x41] 2 0)
      0 0x41 [] (by norm_num) (by norm_num) (by decide) rfl (by decide)⟩

/-! Evaluation of the meta-type dispatch at the fixed-shape case
labels. -/

theorem MidiFileStream.metaDispatch_eq_seqNum
    (L : Int) (s : MidiFileStream) :
    MidiFileStream.metaDispatch 0 L s = MidiFileStream.caseSeqNum L s := by
  delta MidiFileStream.metaDispatch
  rw [if_pos rfl]

theorem MidiFileStream.metaDispatch_eq_chanPfx
    (L : Int) (s : MidiFileStream) :
    MidiFileStream.metaDispatch 32 L s = MidiFileStream.caseChanPfx L s := by
  delta MidiFileStream.metaDispatch
  rw [if_neg (by norm_num)]
  rw [if_neg (by norm_num)]
  rw [if_neg (by norm_num)]
  rw [if_neg (by norm_num)]
  rw [if_neg (by norm_num)]
  rw [if_neg (by norm_num)]
  rw [if_neg (by norm_num)]
  rw [if_neg (by norm_num)]
  rw [if_pos rfl]

theorem MidiFileStream.metaDispatch_eq_endTrack
    (L : Int) (s : MidiFileStream) :
    MidiFileStream.metaDispatch 47 L s = MidiFileStream.caseEndTrack L s := by
  delta MidiFileStream.metaDispatch
  rw [if_neg (by norm_num)]
  rw [if_neg (by norm_num)]
  rw [if_neg (by norm_num)]
  rw [if_neg (by norm_num)]
  rw [if_neg (by norm_num)]
  rw [if_neg (by norm_num)]
  rw [if_neg (by norm_num)]
  rw [if_neg (by norm_num)]
  rw [if_neg (by norm_num)]
  rw [if_pos rfl]

theorem MidiFileStream.metaDispatch_eq_tempo
    (L : Int) (s : MidiFileStream) :
    MidiFileStream.metaDispatch 81 L s = MidiFileStream.caseTempo L s := by
  delta MidiFileStream.metaDispatch
  rw [if_neg (by norm_num)]
  rw [if_neg (by norm_num)]
  rw [if_neg (by norm_num)]
  rw [if_neg (by norm_num)]
  rw [if_neg (by norm_num)]
  rw [if_neg (by norm_num)]
  rw [if_neg (by norm_num)]
  rw [if_neg (by norm_num)]
  rw [if_neg (by norm_num)]
  rw [if_neg (by norm_num)]
  rw [if_pos rfl]

theorem MidiFileStream.metaDispatch_eq_smpteOffset
    (L : Int) (s : MidiFileStream) :
    MidiFileStream.metaDispatch 84 L s = MidiFileStream.caseSmpteOffset L s := by
  delta MidiFileStream.metaDispatch
  rw [if_neg (by norm_num)]
  rw [if_neg (by norm_num)]
  rw [if_neg (by norm_num)]
  rw [if_neg (by norm_num)]
  rw [if_neg (by norm_num)]
  rw [if_neg (by norm_num)]
  rw [if_neg (by norm_num)]
  rw [if_neg (by norm_num)]
  rw [if_neg (by norm_num)]
  rw [if_neg (by norm_num)]
  rw [if_neg (by norm_num)]
  rw [if_pos rfl]

theorem MidiFileStream.metaDispatch_eq_timeSign
    (L : Int) (s : MidiFileStream) :
    MidiFileStream.metaDispatch 88 L s = MidiFileStream.caseTimeSign L s := by
  delta MidiFileStream.metaDispatch
  rw [if_neg (by norm_num)]
  rw [if_neg (by norm_num)]
  rw [if_neg (by norm_num)]
  rw [if_neg (by norm_num)]
  rw [if_neg (by norm_num)]
  rw [if_neg (by norm_num)]
  rw [if_neg (by norm_num)]
  rw [if_neg (by norm_num)]
  rw [if_neg (by norm_num)]
  rw [if_neg (by norm_num)]
  rw [if_neg (by norm_num)]
  rw [if_neg (by norm_num)]
  rw [if_pos rfl]

theorem MidiFileStream.metaDispatch_eq_keySign
    (L : Int) (s : MidiFileStream) :
    MidiFileStream.metaDispatch 89 L s = MidiFileStream.caseKeySign L s := by
  delta MidiFileStream.metaDispatch
  rw [if_neg (by norm_num)]
  rw [if_neg (by norm_num)]
  rw [if_neg (by norm_num)]
  rw [if_neg (by norm_num)]
  rw [if_neg (by norm_num)]
  rw [if_neg (by norm_num)]
  rw [if_neg (by norm_num)]
  rw [if_neg (by norm_num)]
  rw [if_neg (by norm_num)]
  rw [if_neg (by norm_num)]
  rw [if_neg (by norm_num)]
  rw [if_neg (by norm_num)]
  rw [if_neg (by norm_num)]
  rw [if_pos rfl]

/-- C9: declared-length contract of the fixed-shape meta events.  For
every meta type with a fixed payload size (sequence number: 2, channel
prefix: 1, end of track: 0, tempo: 3, SMPTE offset: 5, time signature:
4, key signature: 2, per `metaFixedLength`), a decoded VLQ length that
differs from the expected size makes `readEvent` return the
malformed-event outcome `ET_UNK` without decoding the payload: the
stream position and byte budget stop right after the length byte. -/
theorem readEvent_fixed_meta_length_contract :
    ∀ (s : MidiFileStream) (d t L e : Nat) (rest : List Nat),
    d < 128 → L < 128 → metaFixedLength t = some e → L ≠ e →
    s.stream = [d, 0xFF, t, L] ++ rest → (4 : Int) ≤ s.bytesLeft →
    (MidiFileStream.readEvent s).1 = ET_UNK ∧
    (MidiFileStream.readEvent s).2.stream = rest ∧
    (MidiFileStream.readEvent s).2.bytesLeft = s.bytesLeft - 4 := by
  intro s d t L e rest hd hL hfix hne hs hbl
  obtain ⟨st, bl, fmt, nt, tpb, rs, et, dt, ed⟩ := s
  dsimp only at hs hbl ⊢
  subst hs
  simp only [List.cons_append, List.nil_append]
  simp only [MidiFileStream.readEvent]
  rw [MidiFileStream.rvl_single
    (⟨d :: 0xFF :: t :: L :: rest, bl, fmt, nt, tpb, rs, ET_UNK, dt, ed⟩ :
      MidiFileStream) d (0xFF :: t :: L :: rest) hd (by dsimp only; omega)
    rfl]
  try dsimp only
  rw [if_neg (by omega)]
  rw [MidiFileStream.readChunkByte_cons
    (⟨0xFF :: t :: L :: rest, bl - 1, fmt, nt, tpb, rs, ET_UNK, (d : Int),
      ed⟩ : MidiFileStream) 0xFF (t :: L :: rest) (by dsimp only; omega)
    rfl]
  try dsimp only
  rw [if_neg (by omega), if_neg (by omega), if_pos (by norm_num)]
  simp only [MidiFileStream.readEventMeta]
  rw [MidiFileStream.readChunkByte_cons
    (⟨t :: L :: rest, bl - 1 - 1, fmt, nt, tpb, 0, ET_UNK, (d : Int), ed⟩ :
      MidiFileStream) t (L :: rest) (by dsimp only; omega) rfl]
  try dsimp only
  rw [if_neg (by omega)]
  rw [MidiFileStream.rvl_single
    (⟨L :: rest, bl - 1 - 1 - 1, fmt, nt, tpb, 0, ET_UNK, (d : Int), ed⟩ :
      MidiFileStream) L rest hL (by dsimp only; omega) rfl]
  try dsimp only
  rw [if_neg (by omega)]
  simp only [metaFixedLength] at hfix
  split_ifs at hfix with h0 h1 h2 h3 h4 h5 h6
  · simp only [Option.some.injEq] at hfix
    subst h0
    subst hfix
    simp only [Nat.cast_ofNat, Nat.cast_zero]
    rw [MidiFileStream.metaDispatch_eq_seqNum,
      MidiFileStream.caseSeqNum, if_pos (by omega)]
    refine ⟨rfl, rfl, ?_⟩
    dsimp only
    omega
  · simp only [Option.some.injEq] at hfix
    subst h1
    subst hfix
    simp only [Nat.cast_ofNat]
    rw [MidiFileStream.metaDispatch_eq_chanPfx,
      MidiFileStream.caseChanPfx, if_pos (by omega)]
    refine ⟨rfl, rfl, ?_⟩
    dsimp only
    omega
  · simp only [Option.some.injEq] at hfix
    subst h2
    subst hfix
    simp only [Nat.cast_ofNat]
    rw [MidiFileStream.metaDispatch_eq_endTrack,
      MidiFileStream.caseEndTrack, if_pos (by omega)]
    refine ⟨rfl, rfl, ?_⟩
    dsimp only
    omega
  · simp only [Option.some.injEq] at hfix
    subst h3
    subst hfix
    simp only [Nat.cast_ofNat]
    rw [MidiFileStream.metaDispatch_eq_tempo,
      MidiFileStream.caseTempo, if_pos (by omega)]
    refine ⟨rfl, rfl, ?_⟩
    dsimp only
    omega
  · simp only [Option.some.injEq] at hfix
    subst h4
    subst hfix
    simp only [Nat.cast_ofNat]
    rw [MidiFileStream.metaDispatch_eq_smpteOffset,
      MidiFileStream.caseSmpteOffset, if_pos (by omega)]
    refine ⟨rfl, rfl, ?_⟩
    dsimp only
    omega
  · simp only [Option.some.injEq] at hfix
    subst h5
    subst hfix
    simp only [Nat.cast_ofNat]
    rw [MidiFileStream.metaDispatch_eq_timeSign,
      MidiFileStream.caseTimeSign, if_pos (by omega)]
    refine ⟨rfl, rfl, ?_⟩
    dsimp only
    omega
  · simp only [Option.some.injEq] at hfix
    subst h6
    subst hfix
    simp only [Nat.cast_ofNat]
    rw [MidiFileStream.metaDispatch_eq_keySign,
      MidiFileStream.caseKeySign, if_pos (by omega)]
    refine ⟨rfl, rfl, ?_⟩
    dsimp only
    omega

/-- Witness for the C9 theorem: a tempo meta event `FF 51` with
declared length 2 (instead of 3) is rejected with `ET_UNK`, consuming
only the four header bytes. -/
theorem readEvent_fixed_meta_length_witness :
    (MidiFileStream.readEvent
      (mkState [0x00, 0xFF, 0x51, 0x02, 7, 7] 6 0)).1 = ET_UNK ∧
    (MidiFileStream.readEvent
      (mkState [0x00, 0xFF, 0x51, 0x02, 7, 7] 6 0)).2.stream = [7, 7] ∧
    (MidiFileStream.readEvent
      (mkState [0x00, 0xFF, 0x51, 0x02, 7, 7] 6 0)).2.bytesLeft =
      (mkState [0x00, 0xFF, 0x51, 0x02, 7, 7] 6 0).bytesLeft - 4 :=
  readEvent_fixed_meta_length_contract
    (mkState [0x00, 0xFF, 0x51, 0x02, 7, 7] 6 0) 0x00 0x51 0x02 3 [7, 7]
    (by norm_num) (by norm_num) (by decide) (by norm_num) rfl (by decide)

/-- Big-endian accumulation of byte values modulo `2^32`, mirroring the
32-bit accumulator of `readFixedLong`. -/
def beAccum (acc : Nat) (bs : List Nat) : Nat :=
  bs.foldl (fun a b => (a * 256 + b) % 4294967296) acc

/-- Successful run of the fixed-length reader: with the bytes available
in budget and stream, it consumes exactly them and returns the
big-endian accumulated value reinterpreted as a signed 32-bit long. -/
theorem MidiFileStream.readFixedLongAux_ok (bs : List Nat) :
    ∀ (acc : Nat) (s : MidiFileStream) (rest : List Nat),
    s.stream = bs ++ rest → (bs.length : Int) ≤ s.bytesLeft →
    MidiFileStream.readFixedLongAux bs.length acc s =
      (toSigned32 (beAccum acc bs),
       { s with bytesLeft := s.bytesLeft - bs.length,
                stream := rest }) := by
  induction bs with
  | nil =>
    intro acc s rest hs hbl
    simp only [List.nil_append] at hs
    simp only [List.length_nil, MidiFileStream.readFixedLongAux, beAccum,
      List.foldl_nil, Nat.cast_zero]
    rw [← hs]
    simp
  | cons b bs ih =>
    intro acc s rest hs hbl
    simp only [List.cons_append] at hs
    simp only [List.length_cons] at hbl
    simp only [List.length_cons, MidiFileStream.readFixedLongAux]
    rw [MidiFileStream.readChunkByte_cons s b (bs ++ rest) (by omega) hs]
    simp only []
    rw [if_neg (by omega)]
    have hT : ((b : Int)).toNat = b := by omega
    rw [hT]
    rw [ih ((acc * 256 + b) % 4294967296)
      { s with bytesLeft := s.bytesLeft - 1, stream := bs ++ rest } rest rfl
      (by dsimp only; omega)]
    dsimp only
    simp only [beAccum, List.foldl_cons, Prod.mk.injEq,
      MidiFileStream.mk.injEq, and_true, true_and]
    omega

/-- Wrapper of `readFixedLongAux_ok` for `readFixedLong`. -/
theorem MidiFileStream.readFixedLong_ok (bs : List Nat) (s : MidiFileStream)
    (rest : List Nat) (hs : s.stream = bs ++ rest)
    (hbl : (bs.length : Int) ≤ s.bytesLeft) :
    MidiFileStream.readFixedLong bs.length s =
      (toSigned32 (beAccum 0 bs),
       { s with bytesLeft := s.bytesLeft - bs.length, stream := rest }) :=
  MidiFileStream.readFixedLongAux_ok bs 0 s rest hs hbl

/-- A fixed-length read of more bytes than the stream still has fails
with `-1` (either the budget or the underlying stream runs out). -/
theorem MidiFileStream.readFixedLongAux_short (bs : List Nat) :
    ∀ (n acc : Nat) (s : MidiFileStream), s.stream = bs →
    bs.length < n →
    (MidiFileStream.readFixedLongAux n acc s).1 = -1 := by
  induction bs with
  | nil =>
    intro n acc s hs hlen
    obtain ⟨m, rfl⟩ : ∃ m, n = m + 1 := ⟨n - 1, by omega⟩
    rw [MidiFileStream.readFixedLongAux]
    by_cases hbl : s.bytesLeft ≤ 0
    · rw [MidiFileStream.readChunkByte_stuck s hbl]
      norm_num
    · rw [MidiFileStream.readChunkByte_nil s (by omega) hs]
      norm_num
  | cons b bs ih =>
    intro n acc s hs hlen
    obtain ⟨m, rfl⟩ : ∃ m, n = m + 1 := ⟨n - 1, by omega⟩
    rw [MidiFileStream.readFixedLongAux]
    by_cases hbl : s.bytesLeft ≤ 0
    · rw [MidiFileStream.readChunkByte_stuck s hbl]
      norm_num
    · rw [MidiFileStream.readChunkByte_cons s b bs (by omega) hs]
      simp only []
      rw [if_neg (by omega)]
      exact ih m _ _ rfl (by simp at hlen ⊢; omega)

/-- Evaluation of `openChunk` on a stream with at least 8 bytes: the
four signature bytes are read raw, the four length bytes through the
budget reader, and the chunk is classified; the resulting byte budget
is the 32-bit reinterpretation of the big-endian length. -/
theorem MidiFileStream.openChunk_eval (s : MidiFileStream)
    (a b c d l1 l2 l3 l4 : Nat) (rest : List Nat)
    (hs : s.stream = a :: b :: c :: d :: l1 :: l2 :: l3 :: l4 :: rest) :
    MidiFileStream.openChunk s =
      ((if toSigned32 (beAccum 0 [l1, l2, l3, l4]) < 0 then CT_UNK
        else if [(a : Int), (b : Int), (c : Int), (d : Int)] =
            [77, 84, 104, 100] then CT_MTHD
        else if [(a : Int), (b : Int), (c : Int), (d : Int)] =
            [77, 84, 114, 107] then CT_MTRK
        else CT_UNK),
       { s with bytesLeft := toSigned32 (beAccum 0 [l1, l2, l3, l4]),
                runningStatus := 0, eventType := ET_UNK,
                eventDeltaTicks := -1, stream := rest }) := by
  obtain ⟨st, bl, fmt, nt, tpb, rs, et, dt, ed⟩ := s
  dsimp only at hs ⊢
  subst hs
  simp only [MidiFileStream.openChunk, MidiFileStream.streamRead]
  rw [if_neg (by omega), if_neg (by omega), if_neg (by omega),
    if_neg (by omega)]
  rw [show (4 : Nat) = ([l1, l2, l3, l4] : List Nat).length from rfl]
  rw [MidiFileStream.readFixedLong_ok [l1, l2, l3, l4]
    (⟨l1 :: l2 :: l3 :: l4 :: rest, 4, fmt, nt, tpb, 0, ET_UNK, -1, ed⟩ :
      MidiFileStream) rest rfl (by dsimp only; norm_num)]
  try dsimp only
  split_ifs <;> rfl

/-- With a stream whose first four bytes are not the `MThd` signature
(including streams shorter than a full chunk header), `openChunk` never
returns `CT_MTHD`. -/
theorem MidiFileStream.openChunk_not_mthd (s : MidiFileStream)
    (hs : s.stream.take 4 ≠ [77, 84, 104, 100]) :
    (MidiFileStream.openChunk s).1 ≠ CT_MTHD := by
  obtain ⟨st, bl, fmt, nt, tpb, rs, et, dt, ed⟩ := s
  dsimp only at hs ⊢
  rcases st with _ | ⟨a, _ | ⟨b, _ | ⟨c, _ |
    ⟨d, _ | ⟨l1, _ | ⟨l2, _ | ⟨l3, _ | ⟨l4, rest⟩⟩⟩⟩⟩⟩⟩⟩
  · simp only [MidiFileStream.openChunk, MidiFileStream.streamRead]
    rw [if_pos (by norm_num)]
    simp [CT_END, CT_UNK, CT_MTHD]
  · simp only [MidiFileStream.openChunk, MidiFileStream.streamRead]
    rw [if_neg (by omega), if_pos (by norm_num)]
    simp [CT_END, CT_UNK, CT_MTHD]
  · simp only [MidiFileStream.openChunk, MidiFileStream.streamRead]
    rw [if_neg (by omega), if_neg (by omega), if_pos (by norm_num)]
    simp [CT_END, CT_UNK, CT_MTHD]
  · simp only [MidiFileStream.openChunk, MidiFileStream.streamRead]
    rw [if_neg (by omega), if_neg (by omega), if_neg (by omega),
      if_pos (by norm_num)]
    simp [CT_END, CT_UNK, CT_MTHD]
  · simp only [MidiFileStream.openChunk, MidiFileStream.streamRead]
    rw [if_neg (by omega), if_neg (by omega), if_neg (by omega),
      if_neg (by omega)]
    have hshort := MidiFileStream.readFixedLongAux_short ([] : List Nat) 4 0
      (⟨([] : List Nat), 4, fmt, nt, tpb, 0, ET_UNK, -1, ed⟩ : MidiFileStream) rfl
      (by norm_num)
    rcases hp : MidiFileStream.readFixedLongAux 4 0
      (⟨([] : List Nat), 4, fmt, nt, tpb, 0, ET_UNK, -1, ed⟩ : MidiFileStream)
      with ⟨v, s2⟩
    rw [hp] at hshort
    rw [show MidiFileStream.readFixedLong 4 =
      MidiFileStream.readFixedLongAux 4 0 from rfl, hp]
    try dsimp only
    dsimp only at hshort
    rw [if_pos (by omega)]
    simp [CT_END, CT_UNK, CT_MTHD]
  · simp only [MidiFileStream.openChunk, MidiFileStream.streamRead]
    rw [if_neg (by omega), if_neg (by omega), if_neg (by omega),
      if_neg (by omega)]
    have hshort := MidiFileStream.readFixedLongAux_short [l1] 4 0
      (⟨[l1], 4, fmt, nt, tpb, 0, ET_UNK, -1, ed⟩ : MidiFileStream) rfl
      (by norm_num)
    rcases hp : MidiFileStream.readFixedLongAux 4 0
      (⟨[l1], 4, fmt, nt, tpb, 0, ET_UNK, -1, ed⟩ : MidiFileStream)
      with ⟨v, s2⟩
    rw [hp] at hshort
    rw [show MidiFileStream.readFixedLong 4 =
      MidiFileStream.readFixedLongAux 4 0 from rfl, hp]
    try dsimp only
    dsimp only at hshort
    rw [if_pos (by omega)]
    simp [CT_END, CT_UNK, CT_MTHD]
  · simp only [MidiFileStream.openChunk, MidiFileStream.streamRead]
    rw [if_neg (by omega), if_neg (by omega), if_neg (by omega),
      if_neg (by omega)]
    have hshort := MidiFileStream.readFixedLongAux_short [l1, l2] 4 0
      (⟨[l1, l2], 4, fmt, nt, tpb, 0, ET_UNK, -1, ed⟩ : MidiFileStream) rfl
      (by norm_num)
    rcases hp : MidiFileStream.readFixedLongAux 4 0
      (⟨[l1, l2], 4, fmt, nt, tpb, 0, ET_UNK, -1, ed⟩ : MidiFileStream)
      with ⟨v, s2⟩
    rw [hp] at hshort
    rw [show MidiFileStream.readFixedLong 4 =
      MidiFileStream.readFixedLongAux 4 0 from rfl, hp]
    try dsimp only
    dsimp only at hshort
    rw [if_pos (by omega)]
    simp [CT_END, CT_UNK, CT_MTHD]
  · simp only [MidiFileStream.openChunk, MidiFileStream.streamRead]
    rw [if_neg (by omega), if_neg (by omega), if_neg (by omega),
      if_neg (by omega)]
    have hshort := MidiFileStream.readFixedLongAux_short [l1, l2, l3] 4 0
      (⟨[l1, l2, l3], 4, fmt, nt, tpb, 0, ET_UNK, -1, ed⟩ : MidiFileStream) rfl
      (by norm_num)
    rcases hp : MidiFileStream.readFixedLongAux 4 0
      (⟨[l1, l2, l3], 4, fmt, nt, tpb, 0, ET_UNK, -1, ed⟩ : MidiFileStream)
      with ⟨v, s2⟩
    rw [hp] at hshort
    rw [show MidiFileStream.readFixedLong 4 =
      MidiFileStream.readFixedLongAux 4 0 from rfl, hp]
    try dsimp only
    dsimp only at hshort
    rw [if_pos (by omega)]
    simp [CT_END, CT_UNK, CT_MTHD]
  · have ht4 : List.take 4
        (a :: b :: c :: d :: l1 :: l2 :: l3 :: l4 :: rest) = [a, b, c, d] :=
      rfl
    have hsig : ¬([(a : Int), (b : Int), (c : Int), (d : Int)] =
        [77, 84, 104, 100]) := by
      intro hcontra
      apply hs
      rw [ht4]
      simp only [List.cons.injEq] at hcontra ⊢
      exact_mod_cast hcontra
    rw [MidiFileStream.openChunk_eval
      (⟨a :: b :: c :: d :: l1 :: l2 :: l3 :: l4 :: rest, bl, fmt, nt, tpb,
        rs, et, dt, ed⟩ : MidiFileStream) a b c d l1 l2 l3 l4 rest rfl]
    try dsimp only
    rcases lt_or_ge (toSigned32 (beAccum 0 [l1, l2, l3, l4])) 0 with hv | hv
    · rw [if_pos hv]
      simp [CT_UNK, CT_MTHD]
    · rw [if_neg (by omega), if_neg hsig]
      by_cases hmtrk : [(a : Int), (b : Int), (c : Int), (d : Int)] =
        [77, 84, 114, 107]
      · rw [if_pos hmtrk]
        simp [CT_MTRK, CT_MTHD]
      · rw [if_neg hmtrk]
        simp [CT_UNK, CT_MTHD]

/-- Value of a two-byte big-endian fixed read. -/
theorem toSigned32_beAccum2 (x y : Nat) (hx : x < 256) (hy : y < 256) :
    toSigned32 (beAccum 0 [x, y]) = ((x * 256 + y : Nat) : Int) := by
  simp only [beAccum, List.foldl_cons, List.foldl_nil]
  rw [show ((0 * 256 + x) % 4294967296 * 256 + y) % 4294967296 =
    x * 256 + y from by omega]
  exact toSigned32_small _ (by omega)

/-- A big-endian 16-bit field with the top bit clear is unchanged by the
AVR `(int)` cast. -/
theorem toSigned16_byte_pair (x y : Nat) (hx : x < 128) (hy : y < 256) :
    toSigned16 ((x * 256 + y : Nat) : Int) = ((x * 256 + y : Nat) : Int) := by
  simp only [toSigned16]
  rw [if_pos (by omega)]
  omega

/-- A big-endian 16-bit field with the top bit set becomes negative
under the AVR `(int)` cast. -/
theorem toSigned16_byte_pair_neg (x y : Nat) (hx1 : 128 ≤ x) (hx2 : x < 256)
    (hy : y < 256) :
    toSigned16 ((x * 256 + y : Nat) : Int) =
      ((x * 256 + y : Nat) : Int) - 65536 := by
  simp only [toSigned16]
  rw [if_neg (by omega)]
  omega

set_option maxRecDepth 16000 in
set_option maxHeartbeats 800000 in
/-- Evaluation of `begin` past a well-formed `MThd` header chunk of
declared length 6: the init and header-open steps succeed, leaving the
three field reads of `beginFields` on the remaining stream with a
byte budget of 6. -/
theorem MidiFileStream.begin_fields (s0 : MidiFileStream)
    (rest2 : List Nat) :
    MidiFileStream.begin s0 ([77, 84, 104, 100, 0, 0, 0, 6] ++ rest2) =
      MidiFileStream.beginFields
        (⟨rest2, 6, -1, -1, 0, 0, ET_UNK, -1, s0.eventData⟩ :
          MidiFileStream) := by
  obtain ⟨st, bl, fmt, nt, tpb, rs, et, dt, ed⟩ := s0
  have hoc : MidiFileStream.openChunk
      (⟨[77, 84, 104, 100, 0, 0, 0, 6] ++ rest2, -1, -1, -1, 0, 0,
        ET_UNK, -1, ed⟩ : MidiFileStream) =
      (CT_MTHD,
       (⟨rest2, 6, -1, -1, 0, 0, ET_UNK, -1, ed⟩ : MidiFileStream)) := by
    rw [MidiFileStream.openChunk_eval _ 77 84 104 100 0 0 0 6 rest2 rfl]
    rw [show toSigned32 (beAccum 0 [0, 0, 0, 6]) = 6 from rfl]
    rw [if_neg (by norm_num), if_pos (by norm_num)]
  delta MidiFileStream.begin
  dsimp only
  rw [hoc]
  dsimp only
  rw [if_neg (by norm_num [CT_MTHD]), if_neg (by norm_num)]

/-- Evaluation of the three 16-bit header-field reads of `begin` on a
chunk body holding at least the 6 declared bytes: each field is the
big-endian byte pair passed through the AVR 16-bit `(int)` cast, read
in order, and the first negative cast aborts with `false`. -/
theorem MidiFileStream.beginFields_eval (ed : EventData)
    (f1 f2 n1 n2 t1 t2 : Nat) (rest : List Nat)
    (hf1 : f1 < 256) (hf2 : f2 < 256) (hn1 : n1 < 256) (hn2 : n2 < 256)
    (ht1 : t1 < 256) (ht2 : t2 < 256) :
    MidiFileStream.beginFields
      (⟨f1 :: f2 :: n1 :: n2 :: t1 :: t2 :: rest, 6, -1, -1, 0, 0,
        ET_UNK, -1, ed⟩ : MidiFileStream) =
      (if toSigned16 ((f1 * 256 + f2 : Nat) : Int) < 0 then
        (false,
         (⟨n1 :: n2 :: t1 :: t2 :: rest, 4,
           toSigned16 ((f1 * 256 + f2 : Nat) : Int), -1, 0, 0,
           ET_UNK, -1, ed⟩ : MidiFileStream))
       else if toSigned16 ((n1 * 256 + n2 : Nat) : Int) < 0 then
        (false,
         (⟨t1 :: t2 :: rest, 2,
           toSigned16 ((f1 * 256 + f2 : Nat) : Int),
           toSigned16 ((n1 * 256 + n2 : Nat) : Int), 0, 0,
           ET_UNK, -1, ed⟩ : MidiFileStream))
       else if toSigned16 ((t1 * 256 + t2 : Nat) : Int) < 0 then
        (false,
         (⟨rest, 0,
           toSigned16 ((f1 * 256 + f2 : Nat) : Int),
           toSigned16 ((n1 * 256 + n2 : Nat) : Int),
           toSigned16 ((t1 * 256 + t2 : Nat) : Int), 0,
           ET_UNK, -1, ed⟩ : MidiFileStream))
       else
        (true,
         (⟨rest, 0,
           toSigned16 ((f1 * 256 + f2 : Nat) : Int),
           toSigned16 ((n1 * 256 + n2 : Nat) : Int),
           toSigned16 ((t1 * 256 + t2 : Nat) : Int), 0,
           ET_UNK, -1, ed⟩ : MidiFileStream))) := by
  have h1 : MidiFileStream.readFixedLong 2
      (⟨f1 :: f2 :: n1 :: n2 :: t1 :: t2 :: rest, 6, -1, -1, 0, 0,
        ET_UNK, -1, ed⟩ : MidiFileStream) =
      (((f1 * 256 + f2 : Nat) : Int),
       (⟨n1 :: n2 :: t1 :: t2 :: rest, 4, -1, -1, 0, 0,
         ET_UNK, -1, ed⟩ : MidiFileStream)) := by
    rw [show (2 : Nat) = ([f1, f2] : List Nat).length from rfl]
    rw [MidiFileStream.readFixedLong_ok [f1, f2] _
      (n1 :: n2 :: t1 :: t2 :: rest) rfl (by dsimp only; norm_num)]
    rw [toSigned32_beAccum2 f1 f2 hf1 hf2]
    norm_num
  have h2 : MidiFileStream.readFixedLong 2
      (⟨n1 :: n2 :: t1 :: t2 :: rest, 4,
        toSigned16 ((f1 * 256 + f2 : Nat) : Int), -1, 0, 0,
        ET_UNK, -1, ed⟩ : MidiFileStream) =
      (((n1 * 256 + n2 : Nat) : Int),
       (⟨t1 :: t2 :: rest, 2,
         toSigned16 ((f1 * 256 + f2 : Nat) : Int), -1, 0, 0,
         ET_UNK, -1, ed⟩ : MidiFileStream)) := by
    rw [show (2 : Nat) = ([n1, n2] : List Nat).length from rfl]
    rw [MidiFileStream.readFixedLong_ok [n1, n2] _
      (t1 :: t2 :: rest) rfl (by dsimp only; norm_num)]
    rw [toSigned32_beAccum2 n1 n2 hn1 hn2]
    norm_num
  have h3 : MidiFileStream.readFixedLong 2
      (⟨t1 :: t2 :: rest, 2,
        toSigned16 ((f1 * 256 + f2 : Nat) : Int),
        toSigned16 ((n1 * 256 + n2 : Nat) : Int), 0, 0,
        ET_UNK, -1, ed⟩ : MidiFileStream) =
      (((t1 * 256 + t2 : Nat) : Int),
       (⟨rest, 0,
         toSigned16 ((f1 * 256 + f2 : Nat) : Int),
         toSigned16 ((n1 * 256 + n2 : Nat) : Int), 0, 0,
         ET_UNK, -1, ed⟩ : MidiFileStream)) := by
    rw [show (2 : Nat) = ([t1, t2] : List Nat).length from rfl]
    rw [MidiFileStream.readFixedLong_ok [t1, t2] _ rest rfl
      (by dsimp only; norm_num)]
    rw [toSigned32_beAccum2 t1 t2 ht1 ht2]
    norm_num
  delta MidiFileStream.beginFields
  dsimp only
  rw [h1]
  dsimp only
  rw [h2]
  dsimp only
  rw [h3]
  dsimp only
  norm_num

/-- If the chunk body holds fewer than the 6 declared header bytes, one
of the three field reads fails, its `-1` result casts to a negative
16-bit value, and `beginFields` reports failure. -/
theorem MidiFileStream.beginFields_short (ed : EventData) (rest2 : List Nat)
    (hlen : rest2.length < 6) :
    (MidiFileStream.beginFields
      (⟨rest2, 6, -1, -1, 0, 0, ET_UNK, -1, ed⟩ : MidiFileStream)).1 =
      false := by
  rcases rest2 with _ | ⟨a, _ | ⟨b, _ | ⟨c, _ | ⟨d, _ | ⟨e, rest⟩⟩⟩⟩⟩
  · delta MidiFileStream.beginFields
    dsimp only
    rcases hp : MidiFileStream.readFixedLong 2
      (⟨[], 6, -1, -1, 0, 0, ET_UNK, -1, ed⟩ : MidiFileStream) with ⟨w, s2⟩
    have hw : w = -1 := by
      have hs := MidiFileStream.readFixedLongAux_short ([] : List Nat) 2 0
        (⟨[], 6, -1, -1, 0, 0, ET_UNK, -1, ed⟩ : MidiFileStream) rfl (by norm_num)
      rw [show MidiFileStream.readFixedLongAux 2 0
        (⟨[], 6, -1, -1, 0, 0, ET_UNK, -1, ed⟩ : MidiFileStream) =
        MidiFileStream.readFixedLong 2
        (⟨[], 6, -1, -1, 0, 0, ET_UNK, -1, ed⟩ : MidiFileStream) from rfl, hp] at hs
      exact hs
    subst hw
    dsimp only
    rw [if_pos (by decide)]
  · delta MidiFileStream.beginFields
    dsimp only
    rcases hp : MidiFileStream.readFixedLong 2
      (⟨[a], 6, -1, -1, 0, 0, ET_UNK, -1, ed⟩ : MidiFileStream) with ⟨w, s2⟩
    have hw : w = -1 := by
      have hs := MidiFileStream.readFixedLongAux_short [a] 2 0
        (⟨[a], 6, -1, -1, 0, 0, ET_UNK, -1, ed⟩ : MidiFileStream) rfl (by norm_num)
      rw [show MidiFileStream.readFixedLongAux 2 0
        (⟨[a], 6, -1, -1, 0, 0, ET_UNK, -1, ed⟩ : MidiFileStream) =
        MidiFileStream.readFixedLong 2
        (⟨[a], 6, -1, -1, 0, 0, ET_UNK, -1, ed⟩ : MidiFileStream) from rfl, hp] at hs
      exact hs
    subst hw
    dsimp only
    rw [if_pos (by decide)]
  · delta MidiFileStream.beginFields
    dsimp only
    have h1 : MidiFileStream.readFixedLong 2
        (⟨a :: b :: [], 6, -1, -1, 0, 0, ET_UNK, -1, ed⟩ :
          MidiFileStream) =
        (toSigned32 (beAccum 0 [a, b]),
         (⟨[], 4, -1, -1, 0, 0, ET_UNK, -1, ed⟩ :
           MidiFileStream)) := by
      rw [show (2 : Nat) = ([a, b] : List Nat).length from rfl]
      rw [MidiFileStream.readFixedLong_ok [a, b] _ [] rfl
        (by dsimp only; norm_num)]
      norm_num
    rw [h1]
    dsimp only
    by_cases hf : toSigned16 (toSigned32 (beAccum 0 [a, b])) < 0
    · rw [if_pos hf]
    · rw [if_neg hf]
      rcases hp : MidiFileStream.readFixedLong 2
        (⟨[], 4, toSigned16 (toSigned32 (beAccum 0 [a, b])), -1, 0, 0, ET_UNK, -1, ed⟩ : MidiFileStream) with ⟨w, s2⟩
      have hw : w = -1 := by
        have hs := MidiFileStream.readFixedLongAux_short ([] : List Nat) 2 0
          (⟨[], 4, toSigned16 (toSigned32 (beAccum 0 [a, b])), -1, 0, 0, ET_UNK, -1, ed⟩ : MidiFileStream) rfl (by norm_num)
        rw [show MidiFileStream.readFixedLongAux 2 0
          (⟨[], 4, toSigned16 (toSigned32 (beAccum 0 [a, b])), -1, 0, 0, ET_UNK, -1, ed⟩ : MidiFileStream) =
          MidiFileStream.readFixedLong 2
          (⟨[], 4, toSigned16 (toSigned32 (beAccum 0 [a, b])), -1, 0, 0, ET_UNK, -1, ed⟩ : MidiFileStream) from rfl, hp] at hs
        exact hs
      subst hw
      dsimp only
      rw [if_pos (by decide)]
  · delta MidiFileStream.beginFields
    dsimp only
    have h1 : MidiFileStream.readFixedLong 2
        (⟨a :: b :: [c], 6, -1, -1, 0, 0, ET_UNK, -1, ed⟩ :
          MidiFileStream) =
        (toSigned32 (beAccum 0 [a, b]),
         (⟨[c], 4, -1, -1, 0, 0, ET_UNK, -1, ed⟩ :
           MidiFileStream)) := by
      rw [show (2 : Nat) = ([a, b] : List Nat).length from rfl]
      rw [MidiFileStream.readFixedLong_ok [a, b] _ [c] rfl
        (by dsimp only; norm_num)]
      norm_num
    rw [h1]
    dsimp only
    by_cases hf : toSigned16 (toSigned32 (beAccum 0 [a, b])) < 0
    · rw [if_pos hf]
    · rw [if_neg hf]
      rcases hp : MidiFileStream.readFixedLong 2
        (⟨[c], 4, toSigned16 (toSigned32 (beAccum 0 [a, b])), -1, 0, 0, ET_UNK, -1, ed⟩ : MidiFileStream) with ⟨w, s2⟩
      have hw : w = -1 := by
        have hs := MidiFileStream.readFixedLongAux_short [c] 2 0
          (⟨[c], 4, toSigned16 (toSigned32 (beAccum 0 [a, b])), -1, 0, 0, ET_UNK, -1, ed⟩ : MidiFileStream) rfl (by norm_num)
        rw [show MidiFileStream.readFixedLongAux 2 0
          (⟨[c], 4, toSigned16 (toSigned32 (beAccum 0 [a, b])), -1, 0, 0, ET_UNK, -1, ed⟩ : MidiFileStream) =
          MidiFileStream.readFixedLong 2
          (⟨[c], 4, toSigned16 (toSigned32 (beAccum 0 [a, b])), -1, 0, 0, ET_UNK, -1, ed⟩ : MidiFileStream) from rfl, hp] at hs
        exact hs
      subst hw
      dsimp only
      rw [if_pos (by decide)]
  · delta MidiFileStream.beginFields
    dsimp only
    have h1 : MidiFileStream.readFixedLong 2
        (⟨a :: b :: [c, d], 6, -1, -1, 0, 0, ET_UNK, -1, ed⟩ :
          MidiFileStream) =
        (toSigned32 (beAccum 0 [a, b]),
         (⟨[c, d], 4, -1, -1, 0, 0, ET_UNK, -1, ed⟩ :
           MidiFileStream)) := by
      rw [show (2 : Nat) = ([a, b] : List Nat).length from rfl]
      rw [MidiFileStream.readFixedLong_ok [a, b] _ [c, d] rfl
        (by dsimp only; norm_num)]
      norm_num
    rw [h1]
    dsimp only
    by_cases hf : toSigned16 (toSigned32 (beAccum 0 [a, b])) < 0
    · rw [if_pos hf]
    · rw [if_neg hf]
      have h2 : MidiFileStream.readFixedLong 2
          (⟨c :: d :: [], 4,
            toSigned16 (toSigned32 (beAccum 0 [a, b])), -1, 0, 0, ET_UNK, -1, ed⟩ :
            MidiFileStream) =
          (toSigned32 (beAccum 0 [c, d]),
           (⟨[], 2,
             toSigned16 (toSigned32 (beAccum 0 [a, b])), -1, 0, 0, ET_UNK, -1, ed⟩ :
             MidiFileStream)) := by
        rw [show (2 : Nat) = ([c, d] : List Nat).length from rfl]
        rw [MidiFileStream.readFixedLong_ok [c, d] _ [] rfl
          (by dsimp only; norm_num)]
        norm_num
      rw [h2]
      dsimp only
      by_cases hn : toSigned16 (toSigned32 (beAccum 0 [c, d])) < 0
      · rw [if_pos hn]
      · rw [if_neg hn]
        rcases hp : MidiFileStream.readFixedLong 2
          (⟨[], 2, toSigned16 (toSigned32 (beAccum 0 [a, b])), toSigned16 (toSigned32 (beAccum 0 [c, d])), 0, 0, ET_UNK, -1, ed⟩ : MidiFileStream) with ⟨w, s2⟩
        have hw : w = -1 := by
          have hs := MidiFileStream.readFixedLongAux_short ([] : List Nat) 2 0
            (⟨[], 2, toSigned16 (toSigned32 (beAccum 0 [a, b])), toSigned16 (toSigned32 (beAccum 0 [c, d])), 0, 0, ET_UNK, -1, ed⟩ : MidiFileStream) rfl (by norm_num)
          rw [show MidiFileStream.readFixedLongAux 2 0
            (⟨[], 2, toSigned16 (toSigned32 (beAccum 0 [a, b])), toSigned16 (toSigned32 (beAccum 0 [c, d])), 0, 0, ET_UNK, -1, ed⟩ : MidiFileStream) =
            MidiFileStream.readFixedLong 2
            (⟨[], 2, toSigned16 (toSigned32 (beAccum 0 [a, b])), toSigned16 (toSigned32 (beAccum 0 [c, d])), 0, 0, ET_UNK, -1, ed⟩ : MidiFileStream) from rfl, hp] at hs
          exact hs
        subst hw
        dsimp only
        rw [if_pos (by decide)]
  · have hr : rest = [] := by
      simp only [List.length_cons] at hlen
      exact List.length_eq_zero.mp (by omega)
    subst hr
    delta MidiFileStream.beginFields
    dsimp only
    have h1 : MidiFileStream.readFixedLong 2
        (⟨a :: b :: [c, d, e], 6, -1, -1, 0, 0, ET_UNK, -1, ed⟩ :
          MidiFileStream) =
        (toSigned32 (beAccum 0 [a, b]),
         (⟨[c, d, e], 4, -1, -1, 0, 0, ET_UNK, -1, ed⟩ :
           MidiFileStream)) := by
      rw [show (2 : Nat) = ([a, b] : List Nat).length from rfl]
      rw [MidiFileStream.readFixedLong_ok [a, b] _ [c, d, e] rfl
        (by dsimp only; norm_num)]
      norm_num
    rw [h1]
    dsimp only
    by_cases hf : toSigned16 (toSigned32 (beAccum 0 [a, b])) < 0
    · rw [if_pos hf]
    · rw [if_neg hf]
      have h2 : MidiFileStream.readFixedLong 2
          (⟨c :: d :: [e], 4,
            toSigned16 (toSigned32 (beAccum 0 [a, b])), -1, 0, 0, ET_UNK, -1, ed⟩ :
            MidiFileStream) =
          (toSigned32 (beAccum 0 [c, d]),
           (⟨[e], 2,
             toSigned16 (toSigned32 (beAccum 0 [a, b])), -1, 0, 0, ET_UNK, -1, ed⟩ :
             MidiFileStream)) := by
        rw [show (2 : Nat) = ([c, d] : List Nat).length from rfl]
        rw [MidiFileStream.readFixedLong_ok [c, d] _ [e] rfl
          (by dsimp only; norm_num)]
        norm_num
      rw [h2]
      dsimp only
      by_cases hn : toSigned16 (toSigned32 (beAccum 0 [c, d])) < 0
      · rw [if_pos hn]
      · rw [if_neg hn]
        rcases hp : MidiFileStream.readFixedLong 2
          (⟨[e], 2, toSigned16 (toSigned32 (beAccum 0 [a, b])), toSigned16 (toSigned32 (beAccum 0 [c, d])), 0, 0, ET_UNK, -1, ed⟩ : MidiFileStream) with ⟨w, s2⟩
        have hw : w = -1 := by
          have hs := MidiFileStream.readFixedLongAux_short [e] 2 0
            (⟨[e], 2, toSigned16 (toSigned32 (beAccum 0 [a, b])), toSigned16 (toSigned32 (beAccum 0 [c, d])), 0, 0, ET_UNK, -1, ed⟩ : MidiFileStream) rfl (by norm_num)
          rw [show MidiFileStream.readFixedLongAux 2 0
            (⟨[e], 2, toSigned16 (toSigned32 (beAccum 0 [a, b])), toSigned16 (toSigned32 (beAccum 0 [c, d])), 0, 0, ET_UNK, -1, ed⟩ : MidiFileStream) =
            MidiFileStream.readFixedLong 2
            (⟨[e], 2, toSigned16 (toSigned32 (beAccum 0 [a, b])), toSigned16 (toSigned32 (beAccum 0 [c, d])), 0, 0, ET_UNK, -1, ed⟩ : MidiFileStream) from rfl, hp] at hs
          exact hs
        subst hw
        dsimp only
        rw [if_pos (by decide)]

/-- A 16-bit big-endian field whose AVR `(int)` cast is non-negative is
read back exactly. -/
theorem toSigned16_nonneg_eq (x y : Nat) (hx : x < 256) (hy : y < 256)
    (h : ¬ toSigned16 ((x * 256 + y : Nat) : Int) < 0) :
    toSigned16 ((x * 256 + y : Nat) : Int) = ((x * 256 + y : Nat) : Int) := by
  simp only [toSigned16] at h ⊢
  by_cases hc : ((x * 256 + y : Nat) : Int) % 65536 < 32768
  · rw [if_pos hc] at h ⊢
    omega
  · rw [if_neg hc] at h ⊢
    omega

/-- Full evaluation of `begin` on a well-formed header chunk: the three
field casts are tested in order and the first negative one aborts. -/
theorem MidiFileStream.begin_eval (st : List Nat)
    (bl fmt nt tpb rs : Int) (et : Nat) (dt : Int) (ed : EventData)
    (f1 f2 n1 n2 t1 t2 : Nat) (rest : List Nat)
    (hf1 : f1 < 256) (hf2 : f2 < 256) (hn1 : n1 < 256) (hn2 : n2 < 256)
    (ht1 : t1 < 256) (ht2 : t2 < 256) :
    MidiFileStream.begin
      (⟨st, bl, fmt, nt, tpb, rs, et, dt, ed⟩ : MidiFileStream)
      ([77, 84, 104, 100, 0, 0, 0, 6] ++
        (f1 :: f2 :: n1 :: n2 :: t1 :: t2 :: rest)) =
      (if toSigned16 ((f1 * 256 + f2 : Nat) : Int) < 0 then
        (false,
         (⟨n1 :: n2 :: t1 :: t2 :: rest, 4,
           toSigned16 ((f1 * 256 + f2 : Nat) : Int), -1, 0, 0,
           ET_UNK, -1, ed⟩ : MidiFileStream))
       else if toSigned16 ((n1 * 256 + n2 : Nat) : Int) < 0 then
        (false,
         (⟨t1 :: t2 :: rest, 2,
           toSigned16 ((f1 * 256 + f2 : Nat) : Int),
           toSigned16 ((n1 * 256 + n2 : Nat) : Int), 0, 0,
           ET_UNK, -1, ed⟩ : MidiFileStream))
       else if toSigned16 ((t1 * 256 + t2 : Nat) : Int) < 0 then
        (false,
         (⟨rest, 0,
           toSigned16 ((f1 * 256 + f2 : Nat) : Int),
           toSigned16 ((n1 * 256 + n2 : Nat) : Int),
           toSigned16 ((t1 * 256 + t2 : Nat) : Int), 0,
           ET_UNK, -1, ed⟩ : MidiFileStream))
       else
        (true,
         (⟨rest, 0,
           toSigned16 ((f1 * 256 + f2 : Nat) : Int),
           toSigned16 ((n1 * 256 + n2 : Nat) : Int),
           toSigned16 ((t1 * 256 + t2 : Nat) : Int), 0,
           ET_UNK, -1, ed⟩ : MidiFileStream))) := by
    rw [MidiFileStream.begin_fields]
    dsimp only
    rw [MidiFileStream.beginFields_eval ed f1 f2 n1 n2 t1 t2 rest
      hf1 hf2 hn1 hn2 ht1 ht2]

/-- Evaluation of `begin` on a well-formed header chunk, with the three
field casts abstracted as `F`, `N`, `T`: they are tested in order and the
first negative one aborts with `false`. -/
theorem MidiFileStream.begin_eval_gen (st : List Nat)
    (bl fmt nt tpb rs : Int) (et : Nat) (dt : Int) (ed : EventData)
    (f1 f2 n1 n2 t1 t2 : Nat) (rest : List Nat)
    (hf1 : f1 < 256) (hf2 : f2 < 256) (hn1 : n1 < 256) (hn2 : n2 < 256)
    (ht1 : t1 < 256) (ht2 : t2 < 256) (F N T : Int)
    (hFe : F = toSigned16 ((f1 * 256 + f2 : Nat) : Int))
    (hNe : N = toSigned16 ((n1 * 256 + n2 : Nat) : Int))
    (hTe : T = toSigned16 ((t1 * 256 + t2 : Nat) : Int)) :
    MidiFileStream.begin
      (⟨st, bl, fmt, nt, tpb, rs, et, dt, ed⟩ : MidiFileStream)
      ([77, 84, 104, 100, 0, 0, 0, 6] ++
        (f1 :: f2 :: n1 :: n2 :: t1 :: t2 :: rest)) =
      (if F < 0 then
        (false,
         (⟨n1 :: n2 :: t1 :: t2 :: rest, 4, F, -1, 0, 0,
           ET_UNK, -1, ed⟩ : MidiFileStream))
       else if N < 0 then
        (false,
         (⟨t1 :: t2 :: rest, 2, F, N, 0, 0,
           ET_UNK, -1, ed⟩ : MidiFileStream))
       else if T < 0 then
        (false,
         (⟨rest, 0, F, N, T, 0, ET_UNK, -1, ed⟩ : MidiFileStream))
       else
        (true,
         (⟨rest, 0, F, N, T, 0, ET_UNK, -1, ed⟩ : MidiFileStream))) := by
  rw [hFe, hNe, hTe]
  exact MidiFileStream.begin_eval st bl fmt nt tpb rs et dt ed
    f1 f2 n1 n2 t1 t2 rest hf1 hf2 hn1 hn2 ht1 ht2

/-- C7: `begin` returns `false` when the first chunk's signature is not
`MThd` (part 1), when the declared chunk length is not exactly 6
(part 2), or when any of the three 16-bit header fields cannot be read
because the stream ends early (part 3); whenever it returns `true`, the
getters `getFormat`, `getNumTracks` and `getTicksPerBeat` return exactly
the big-endian values of the three 16-bit header fields (part 4), and it
does return `true` whenever all three fields have a clear top bit
(part 5).  (MidiFileStream.cpp lines 81-156.) -/
theorem begin_header_contract (s0 : MidiFileStream) (data : List Nat)
    (f1 f2 n1 n2 t1 t2 : Nat) (rest : List Nat)
    (hf1 : f1 < 256) (hf2 : f2 < 256) (hn1 : n1 < 256) (hn2 : n2 < 256)
    (ht1 : t1 < 256) (ht2 : t2 < 256) :
    (data.take 4 ≠ [77, 84, 104, 100] →
      (MidiFileStream.begin s0 data).1 = false) ∧
    (∀ l1 l2 l3 l4 : Nat, l1 < 256 → l2 < 256 → l3 < 256 → l4 < 256 →
      ¬(l1 = 0 ∧ l2 = 0 ∧ l3 = 0 ∧ l4 = 6) →
      (MidiFileStream.begin s0
        ([77, 84, 104, 100, l1, l2, l3, l4] ++ rest)).1 = false) ∧
    (∀ rest2 : List Nat, rest2.length < 6 →
      (MidiFileStream.begin s0
        ([77, 84, 104, 100, 0, 0, 0, 6] ++ rest2)).1 = false) ∧
    ((MidiFileStream.begin s0
        ([77, 84, 104, 100, 0, 0, 0, 6] ++
          (f1 :: f2 :: n1 :: n2 :: t1 :: t2 :: rest))).1 = true →
      (MidiFileStream.begin s0
        ([77, 84, 104, 100, 0, 0, 0, 6] ++
          (f1 :: f2 :: n1 :: n2 :: t1 :: t2 :: rest))).2.getFormat =
        ((f1 * 256 + f2 : Nat) : Int) ∧
      (MidiFileStream.begin s0
        ([77, 84, 104, 100, 0, 0, 0, 6] ++
          (f1 :: f2 :: n1 :: n2 :: t1 :: t2 :: rest))).2.getNumTracks =
        ((n1 * 256 + n2 : Nat) : Int) ∧
      (MidiFileStream.begin s0
        ([77, 84, 104, 100, 0, 0, 0, 6] ++
          (f1 :: f2 :: n1 :: n2 :: t1 :: t2 :: rest))).2.getTicksPerBeat =
        ((t1 * 256 + t2 : Nat) : Int)) ∧
    (f1 < 128 → n1 < 128 → t1 < 128 →
      (MidiFileStream.begin s0
        ([77, 84, 104, 100, 0, 0, 0, 6] ++
          (f1 :: f2 :: n1 :: n2 :: t1 :: t2 :: rest))).1 = true) := by
  obtain ⟨st, bl, fmt, nt, tpb, rs, et, dt, ed⟩ := s0
  obtain ⟨F, hFe⟩ : ∃ F : Int,
      F = toSigned16 ((f1 * 256 + f2 : Nat) : Int) := ⟨_, rfl⟩
  obtain ⟨N, hNe⟩ : ∃ N : Int,
      N = toSigned16 ((n1 * 256 + n2 : Nat) : Int) := ⟨_, rfl⟩
  obtain ⟨T, hTe⟩ : ∃ T : Int,
      T = toSigned16 ((t1 * 256 + t2 : Nat) : Int) := ⟨_, rfl⟩
  have hb := MidiFileStream.begin_eval_gen st bl fmt nt tpb rs et dt ed
    f1 f2 n1 n2 t1 t2 rest hf1 hf2 hn1 hn2 ht1 ht2 F N T hFe hNe hTe
  refine ⟨?_, ?_, ?_, ?_, ?_⟩
  · intro ha
    delta MidiFileStream.begin
    dsimp only
    rcases hc : MidiFileStream.openChunk
      (⟨data, -1, -1, -1, 0, 0, ET_UNK, -1, ed⟩ : MidiFileStream)
      with ⟨ct, s1⟩
    have hnsig := MidiFileStream.openChunk_not_mthd
      (⟨data, -1, -1, -1, 0, 0, ET_UNK, -1, ed⟩ : MidiFileStream)
      (by dsimp only; exact ha)
    rw [hc] at hnsig
    dsimp only at hnsig
    dsimp only
    rw [if_pos hnsig]
  · intro l1 l2 l3 l4 hl1 hl2 hl3 hl4 hne
    delta MidiFileStream.begin
    dsimp only
    rcases hc : MidiFileStream.openChunk
      (⟨[77, 84, 104, 100, l1, l2, l3, l4] ++ rest, -1, -1, -1, 0, 0,
        ET_UNK, -1, ed⟩ : MidiFileStream) with ⟨ct, s1⟩
    rw [MidiFileStream.openChunk_eval _ 77 84 104 100 l1 l2 l3 l4 rest
      rfl] at hc
    dsimp only
    rcases lt_or_ge (toSigned32 (beAccum 0 [l1, l2, l3, l4])) 0 with hv | hv
    · rw [if_pos hv, Prod.mk.injEq] at hc
      obtain ⟨hct, hs1⟩ := hc
      subst hct
      subst hs1
      rw [if_pos (by simp [CT_UNK, CT_MTHD])]
    · rw [if_neg (by omega), if_pos (by norm_num), Prod.mk.injEq] at hc
      obtain ⟨hct, hs1⟩ := hc
      subst hct
      subst hs1
      rw [if_neg (by simp [CT_MTHD])]
      dsimp only
      have hv6 : toSigned32 (beAccum 0 [l1, l2, l3, l4]) ≠ 6 := by
        simp only [toSigned32, beAccum, List.foldl_cons, List.foldl_nil]
        split_ifs with hsp
        · omega
        · omega
      rw [if_pos hv6]
  · intro rest2 hlen
    rw [MidiFileStream.begin_fields]
    dsimp only
    exact MidiFileStream.beginFields_short ed rest2 hlen
  · intro htrue
    rw [hb] at htrue ⊢
    by_cases hF : F < 0
    · rw [if_pos hF] at htrue
      dsimp only at htrue
      exact Bool.noConfusion htrue
    · rw [if_neg hF] at htrue ⊢
      by_cases hN : N < 0
      · rw [if_pos hN] at htrue
        dsimp only at htrue
        exact Bool.noConfusion htrue
      · rw [if_neg hN] at htrue ⊢
        by_cases hT : T < 0
        · rw [if_pos hT] at htrue
          dsimp only at htrue
          exact Bool.noConfusion htrue
        · rw [if_neg hT]
          rw [hFe] at hF
          rw [hNe] at hN
          rw [hTe] at hT
          simp only [MidiFileStream.getFormat, MidiFileStream.getNumTracks,
            MidiFileStream.getTicksPerBeat]
          try dsimp only
          rw [hFe, hNe, hTe]
          exact ⟨toSigned16_nonneg_eq f1 f2 hf1 hf2 hF,
            toSigned16_nonneg_eq n1 n2 hn1 hn2 hN,
            toSigned16_nonneg_eq t1 t2 ht1 ht2 hT⟩
  · intro h128f h128n h128t
    rw [hb]
    rw [if_neg (by
      rw [hFe, toSigned16_byte_pair f1 f2 h128f hf2]; omega)]
    rw [if_neg (by
      rw [hNe, toSigned16_byte_pair n1 n2 h128n hn2]; omega)]
    rw [if_neg (by
      rw [hTe, toSigned16_byte_pair t1 t2 h128t ht2]; omega)]

/-- Witness for C7 at concrete inputs: a non-`MThd` stream is rejected, a
declared length of 7 is rejected, a truncated field area is rejected, and
the header `format=1, tracks=2, division=480` round-trips. -/
theorem begin_header_contract_witness :
    (MidiFileStream.begin (mkState [] 0 0) [0, 1, 2]).1 = false ∧
    (MidiFileStream.begin (mkState [] 0 0)
      ([77, 84, 104, 100, 0, 0, 0, 7] ++ [])).1 = false ∧
    (MidiFileStream.begin (mkState [] 0 0)
      ([77, 84, 104, 100, 0, 0, 0, 6] ++ [0, 1])).1 = false ∧
    (MidiFileStream.begin (mkState [] 0 0)
      ([77, 84, 104, 100, 0, 0, 0, 6] ++
        (0 :: 1 :: 0 :: 2 :: 1 :: 224 :: []))).1 = true ∧
    (MidiFileStream.begin (mkState [] 0 0)
      ([77, 84, 104, 100, 0, 0, 0, 6] ++
        (0 :: 1 :: 0 :: 2 :: 1 :: 224 :: []))).2.getTicksPerBeat = 480 := by
  have h := begin_header_contract (mkState [] 0 0) [0, 1, 2] 0 1 0 2 1 224 []
    (by norm_num) (by norm_num) (by norm_num) (by norm_num) (by norm_num)
    (by norm_num)
  refine ⟨h.1 (by decide),
    h.2.1 0 0 0 7 (by norm_num) (by norm_num) (by norm_num) (by norm_num)
      (by decide),
    h.2.2.1 [0, 1] (by norm_num),
    h.2.2.2.2 (by norm_num) (by norm_num) (by norm_num), ?_⟩
  have hg := h.2.2.2.1 (h.2.2.2.2 (by norm_num) (by norm_num) (by norm_num))
  have hT := hg.2.2
  norm_num at hT
  exact hT

/-- C8: a header chunk whose 16-bit division field lies in
[0x8000, 0xFFFF] (SMPTE frame-rate style, top bit set) is rejected:
its AVR 16-bit `(int)` cast is negative, and `begin` returns `false`
for every such header, whatever the other fields hold
(MidiFileStream.cpp lines 134-140, via `readFixedLong`'s value being
assigned through the `(int)` cast). -/
theorem begin_smpte_division_rejected (s0 : MidiFileStream)
    (f1 f2 n1 n2 t1 t2 : Nat) (rest : List Nat)
    (hf1 : f1 < 256) (hf2 : f2 < 256) (hn1 : n1 < 256) (hn2 : n2 < 256)
    (ht1 : t1 < 256) (ht2 : t2 < 256) (hsmpte : 128 ≤ t1) :
    (32768 ≤ t1 * 256 + t2 ∧ t1 * 256 + t2 ≤ 65535 ∧
      toSigned16 ((t1 * 256 + t2 : Nat) : Int) < 0) ∧
    (MidiFileStream.begin s0
      ([77, 84, 104, 100, 0, 0, 0, 6] ++
        (f1 :: f2 :: n1 :: n2 :: t1 :: t2 :: rest))).1 = false := by
  obtain ⟨st, bl, fmt, nt, tpb, rs, et, dt, ed⟩ := s0
  have hcast : toSigned16 ((t1 * 256 + t2 : Nat) : Int) =
      ((t1 * 256 + t2 : Nat) : Int) - 65536 :=
    toSigned16_byte_pair_neg t1 t2 hsmpte ht1 ht2
  have hneg : toSigned16 ((t1 * 256 + t2 : Nat) : Int) < 0 := by
    rw [hcast]
    have : t1 * 256 + t2 ≤ 65535 := by omega
    omega
  refine ⟨⟨by omega, by omega, hneg⟩, ?_⟩
  obtain ⟨F, hFe⟩ : ∃ F : Int,
      F = toSigned16 ((f1 * 256 + f2 : Nat) : Int) := ⟨_, rfl⟩
  obtain ⟨N, hNe⟩ : ∃ N : Int,
      N = toSigned16 ((n1 * 256 + n2 : Nat) : Int) := ⟨_, rfl⟩
  obtain ⟨T, hTe⟩ : ∃ T : Int,
      T = toSigned16 ((t1 * 256 + t2 : Nat) : Int) := ⟨_, rfl⟩
  have hb := MidiFileStream.begin_eval_gen st bl fmt nt tpb rs et dt ed
    f1 f2 n1 n2 t1 t2 rest hf1 hf2 hn1 hn2 ht1 ht2 F N T hFe hNe hTe
  rw [hb]
  have hTneg : T < 0 := by
    rw [hTe]
    exact hneg
  by_cases hF : F < 0
  · rw [if_pos hF]
  · rw [if_neg hF]
    by_cases hN : N < 0
    · rw [if_pos hN]
    · rw [if_neg hN]
      rw [if_pos hTneg]

/-- Witness for C8: division `0x8000` (t1 = 128, t2 = 0) has a negative
16-bit cast and the header is rejected. -/
theorem begin_smpte_division_rejected_witness :
    toSigned16 ((128 * 256 + 0 : Nat) : Int) < 0 ∧
    (MidiFileStream.begin (mkState [] 0 0)
      ([77, 84, 104, 100, 0, 0, 0, 6] ++
        (0 :: 1 :: 0 :: 1 :: 128 :: 0 :: []))).1 = false := by
  have h := begin_smpte_division_rejected (mkState [] 0 0) 0 1 0 1 128 0 []
    (by norm_num) (by norm_num) (by norm_num) (by norm_num) (by norm_num)
    (by norm_num) (by norm_num)
  exact ⟨h.1.2.2, h.2⟩

/-- Byte-budget relation between a state before and after a reading
operation: the stream is only consumed from the front, the budget never
increases and never drops below `min bytesLeft 0`, and the number of
bytes consumed from the stream is at most the drop in the budget.  With
a non-negative starting budget this bounds the bytes consumed by the
budget: no reader goes past the declared chunk boundary. -/
def MidiFileStream.Budgeted (s t : MidiFileStream) : Prop :=
  t.stream.IsSuffix s.stream ∧
  min s.bytesLeft 0 ≤ t.bytesLeft ∧
  t.bytesLeft ≤ s.bytesLeft ∧
  ((s.stream.length : Int) - t.stream.length ≤ s.bytesLeft - t.bytesLeft)

theorem MidiFileStream.budgeted_refl (s : MidiFileStream) :
    MidiFileStream.Budgeted s s :=
  ⟨List.suffix_rfl, by omega, by omega, by omega⟩

theorem MidiFileStream.budgeted_trans (s t u : MidiFileStream)
    (h1 : MidiFileStream.Budgeted s t) (h2 : MidiFileStream.Budgeted t u) :
    MidiFileStream.Budgeted s u := by
  obtain ⟨hsf1, hlo1, hhi1, hlen1⟩ := h1
  obtain ⟨hsf2, hlo2, hhi2, hlen2⟩ := h2
  exact ⟨hsf2.trans hsf1, by omega, by omega, by omega⟩

theorem MidiFileStream.budgeted_same (s t : MidiFileStream)
    (hst : t.stream = s.stream) (hbl : t.bytesLeft = s.bytesLeft) :
    MidiFileStream.Budgeted s t :=
  ⟨by rw [hst], by omega, by omega, by rw [hst]; omega⟩

theorem MidiFileStream.budgeted_update (s t u : MidiFileStream)
    (h : MidiFileStream.Budgeted s t)
    (hst : u.stream = t.stream) (hbl : u.bytesLeft = t.bytesLeft) :
    MidiFileStream.Budgeted s u :=
  MidiFileStream.budgeted_trans s t u h
    (MidiFileStream.budgeted_same t u hst hbl)

theorem MidiFileStream.budgeted_ite (s : MidiFileStream) (c : Prop)
    [Decidable c] (t u : MidiFileStream)
    (h1 : MidiFileStream.Budgeted s t) (h2 : MidiFileStream.Budgeted s u) :
    MidiFileStream.Budgeted s (if c then t else u) := by
  by_cases hc : c
  · rw [if_pos hc]; exact h1
  · rw [if_neg hc]; exact h2

theorem MidiFileStream.readChunkByte_budgeted (s : MidiFileStream) :
    MidiFileStream.Budgeted s (MidiFileStream.readChunkByte s).2 := by
  by_cases h : s.bytesLeft ≤ 0
  · rw [MidiFileStream.readChunkByte_stuck s h]
    exact MidiFileStream.budgeted_refl s
  · rcases hs : s.stream with _ | ⟨b, rest⟩
    · rw [MidiFileStream.readChunkByte_nil s (by omega) hs]
      refine ⟨?_, ?_, ?_, ?_⟩ <;> dsimp only
      · exact List.suffix_rfl
      · omega
      · omega
      · omega
    · rw [MidiFileStream.readChunkByte_cons s b rest (by omega) hs]
      refine ⟨?_, ?_, ?_, ?_⟩ <;> dsimp only
      · rw [hs]
        exact ⟨[b], rfl⟩
      · omega
      · omega
      · rw [hs]
        simp only [List.length_cons]
        omega

theorem MidiFileStream.readFixedLongAux_budgeted :
    ∀ (n acc : Nat) (s : MidiFileStream),
    MidiFileStream.Budgeted s (MidiFileStream.readFixedLongAux n acc s).2 := by
  intro n
  induction n with
  | zero =>
    intro acc s
    rw [MidiFileStream.readFixedLongAux]
    exact MidiFileStream.budgeted_refl s
  | succ n ih =>
    intro acc s
    rw [MidiFileStream.readFixedLongAux]
    try dsimp only
    rcases hp : MidiFileStream.readChunkByte s with ⟨v, t⟩
    have hb : MidiFileStream.Budgeted s t := by
      have h0 := MidiFileStream.readChunkByte_budgeted s
      rw [hp] at h0
      exact h0
    try dsimp only
    by_cases hv : v < 0
    · rw [if_pos hv]
      exact hb
    · rw [if_neg hv]
      exact MidiFileStream.budgeted_trans s t _ hb (ih _ t)

theorem MidiFileStream.readFixedLong_budgeted (n : Nat)
    (s : MidiFileStream) :
    MidiFileStream.Budgeted s (MidiFileStream.readFixedLong n s).2 :=
  MidiFileStream.readFixedLongAux_budgeted n 0 s

theorem MidiFileStream.rvlAux_budgeted :
    ∀ (fuel numBytes resultU : Nat) (s : MidiFileStream),
    MidiFileStream.Budgeted s
      (MidiFileStream.rvlAux fuel numBytes resultU s).2 := by
  intro fuel
  induction fuel with
  | zero =>
    intro numBytes resultU s
    rw [MidiFileStream.rvlAux]
    exact MidiFileStream.budgeted_refl s
  | succ fuel ih =>
    intro numBytes resultU s
    rw [MidiFileStream.rvlAux]
    try dsimp only
    by_cases hnb : numBytes > 4
    · rw [if_pos hnb]
      exact MidiFileStream.budgeted_refl s
    · rw [if_neg hnb]
      rcases hp : MidiFileStream.readChunkByte s with ⟨v, t⟩
      have hb : MidiFileStream.Budgeted s t := by
        have h0 := MidiFileStream.readChunkByte_budgeted s
        rw [hp] at h0
        exact h0
      try dsimp only
      by_cases hv : v < 0
      · rw [if_pos hv]
        exact hb
      · rw [if_neg hv]
        by_cases hc : and0x80 v = 128
        · rw [if_pos hc]
          exact MidiFileStream.budgeted_trans s t _ hb (ih _ _ t)
        · rw [if_neg hc]
          exact hb

theorem MidiFileStream.readVariableLong_budgeted (s : MidiFileStream) :
    MidiFileStream.Budgeted s (MidiFileStream.readVariableLong s).2 :=
  MidiFileStream.rvlAux_budgeted 6 0 0 s

theorem MidiFileStream.rvbRead_budgeted :
    ∀ (n idx : Nat) (buf : Nat → Nat) (s : MidiFileStream),
    MidiFileStream.Budgeted s
      (MidiFileStream.rvbRead n idx buf s).2.2.2 := by
  intro n
  induction n with
  | zero =>
    intro idx buf s
    rw [MidiFileStream.rvbRead]
    exact MidiFileStream.budgeted_refl s
  | succ n ih =>
    intro idx buf s
    rw [MidiFileStream.rvbRead]
    try dsimp only
    rcases hp : MidiFileStream.readChunkByte s with ⟨v, t⟩
    have hb : MidiFileStream.Budgeted s t := by
      have h0 := MidiFileStream.readChunkByte_budgeted s
      rw [hp] at h0
      exact h0
    try dsimp only
    by_cases hv : v < 0
    · rw [if_pos hv]
      exact hb
    · rw [if_neg hv]
      exact MidiFileStream.budgeted_trans s t _ hb (ih _ _ t)

theorem MidiFileStream.rvbSkip_budgeted :
    ∀ (n : Nat) (s : MidiFileStream),
    MidiFileStream.Budgeted s (MidiFileStream.rvbSkip n s).2 := by
  intro n
  induction n with
  | zero =>
    intro s
    rw [MidiFileStream.rvbSkip]
    exact MidiFileStream.budgeted_refl s
  | succ n ih =>
    intro s
    rw [MidiFileStream.rvbSkip]
    try dsimp only
    rcases hp : MidiFileStream.readChunkByte s with ⟨v, t⟩
    have hb : MidiFileStream.Budgeted s t := by
      have h0 := MidiFileStream.readChunkByte_budgeted s
      rw [hp] at h0
      exact h0
    try dsimp only
    by_cases hv : v < 0
    · rw [if_pos hv]
      exact hb
    · rw [if_neg hv]
      exact MidiFileStream.budgeted_trans s t _ hb (ih t)

theorem MidiFileStream.metaSkip_budgeted :
    ∀ (n : Nat) (s : MidiFileStream),
    MidiFileStream.Budgeted s (MidiFileStream.metaSkip n s).2 := by
  intro n
  induction n with
  | zero =>
    intro s
    rw [MidiFileStream.metaSkip]
    exact MidiFileStream.budgeted_refl s
  | succ n ih =>
    intro s
    rw [MidiFileStream.metaSkip]
    try dsimp only
    rcases hp : MidiFileStream.readChunkByte s with ⟨v, t⟩
    have hb : MidiFileStream.Budgeted s t := by
      have h0 := MidiFileStream.readChunkByte_budgeted s
      rw [hp] at h0
      exact h0
    try dsimp only
    by_cases hv : v < 0
    · rw [if_pos hv]
      exact hb
    · rw [if_neg hv]
      exact MidiFileStream.budgeted_trans s t _ hb (ih t)

theorem MidiFileStream.readVariableBytes_budgeted (length : Int)
    (pBuffer : Nat → Nat) (s : MidiFileStream) :
    MidiFileStream.Budgeted s
      (MidiFileStream.readVariableBytes length pBuffer s).2.2 := by
  delta MidiFileStream.readVariableBytes
  dsimp only
  rcases hr : MidiFileStream.rvbRead
    (if length > EV_BUFFER_SIZE - 1 then EV_BUFFER_SIZE - 1
      else length).toNat 0 (Function.update pBuffer 0 0) s
    with ⟨ok, idx, buf2, t⟩
  have hb1 : MidiFileStream.Budgeted s t := by
    have h0 := MidiFileStream.rvbRead_budgeted
      (if length > EV_BUFFER_SIZE - 1 then EV_BUFFER_SIZE - 1
        else length).toNat 0 (Function.update pBuffer 0 0) s
    rw [hr] at h0
    exact h0
  dsimp only
  by_cases hok : ok = false
  · rw [if_pos hok]
    exact hb1
  · rw [if_neg hok]
    rcases hk : MidiFileStream.rvbSkip
      (length - if length > EV_BUFFER_SIZE - 1 then EV_BUFFER_SIZE - 1
        else length).toNat t with ⟨ok2, u⟩
    have hb2 : MidiFileStream.Budgeted t u := by
      have h0 := MidiFileStream.rvbSkip_budgeted
        (length - if length > EV_BUFFER_SIZE - 1 then EV_BUFFER_SIZE - 1
          else length).toNat t
      rw [hk] at h0
      exact h0
    try dsimp only
    by_cases hok2 : ok2 = false
    · rw [if_pos hok2]
      exact MidiFileStream.budgeted_trans s t u hb1 hb2
    · rw [if_neg hok2]
      exact MidiFileStream.budgeted_trans s t u hb1 hb2

/-- One byte-read step of the SMPTE/time-signature/key-signature meta
cases: read a chunk byte, mark `ET_UNK` on failure without returning,
and store a function of the byte in the event data.  The chunk budget
relation is preserved. -/
theorem MidiFileStream.budgeted_meta_byte_step (s0 t : MidiFileStream)
    (h : MidiFileStream.Budgeted s0 t) (f : Int → EventData → EventData) :
    MidiFileStream.Budgeted s0
      (let p := MidiFileStream.readChunkByte t
       let u := if p.1 < 0 then { p.2 with eventType := ET_UNK } else p.2
       { u with eventData := f p.1 u.eventData }) := by
  dsimp only
  have hb : MidiFileStream.Budgeted s0 (MidiFileStream.readChunkByte t).2 :=
    MidiFileStream.budgeted_trans s0 t _ h
      (MidiFileStream.readChunkByte_budgeted t)
  refine MidiFileStream.budgeted_update s0 _ _ ?_ rfl rfl
  exact MidiFileStream.budgeted_ite s0 _ _ _
    (MidiFileStream.budgeted_update s0 _ _ hb rfl rfl) hb

theorem MidiFileStream.caseSeqNum_budgeted (length : Int)
    (s0 : MidiFileStream) :
    MidiFileStream.Budgeted s0 (MidiFileStream.caseSeqNum length s0).2 := by
  delta MidiFileStream.caseSeqNum
  dsimp only
  by_cases h1 : length ≠ 2
  · rw [if_pos h1]
    exact MidiFileStream.budgeted_same s0 _ rfl rfl
  · rw [if_neg h1]
    rcases hp : MidiFileStream.readFixedLong 2
      { s0 with eventType := ET_SEQ_NUM } with ⟨v, t⟩
    have hb : MidiFileStream.Budgeted s0 t := by
      have h0 := MidiFileStream.readFixedLong_budgeted 2
        { s0 with eventType := ET_SEQ_NUM }
      rw [hp] at h0
      exact MidiFileStream.budgeted_trans s0 _ t
        (MidiFileStream.budgeted_same s0 _ rfl rfl) h0
    try dsimp only
    by_cases hv : v < 0
    · rw [if_pos hv]
      exact MidiFileStream.budgeted_update s0 t _ hb rfl rfl
    · rw [if_neg hv]
      exact MidiFileStream.budgeted_update s0 t _ hb rfl rfl

theorem MidiFileStream.readTextLikeMeta_budgeted (et : Nat)
    (readBuf : EventData → DataBytes)
    (store : EventData → DataBytes → EventData)
    (length : Int) (s0 : MidiFileStream) :
    MidiFileStream.Budgeted s0
      (MidiFileStream.readTextLikeMeta et readBuf store length s0).2 := by
  delta MidiFileStream.readTextLikeMeta
  dsimp only
  rcases hq : MidiFileStream.readVariableBytes length
    (readBuf s0.eventData).bytes
    { s0 with eventType := et } with ⟨v, buf2, t⟩
  have hb : MidiFileStream.Budgeted s0 t := by
    have h0 := MidiFileStream.readVariableBytes_budgeted length
      (readBuf s0.eventData).bytes
      { s0 with eventType := et }
    rw [hq] at h0
    exact MidiFileStream.budgeted_trans s0 _ t
      (MidiFileStream.budgeted_same s0 _ rfl rfl) h0
  try dsimp only
  by_cases hv : v < 0
  · rw [if_pos hv]
    exact MidiFileStream.budgeted_update s0 t _
      (MidiFileStream.budgeted_update s0 t _ hb rfl rfl) rfl rfl
  · rw [if_neg hv]
    exact MidiFileStream.budgeted_update s0 t _ hb rfl rfl

theorem MidiFileStream.caseChanPfx_budgeted (length : Int)
    (s0 : MidiFileStream) :
    MidiFileStream.Budgeted s0 (MidiFileStream.caseChanPfx length s0).2 := by
  delta MidiFileStream.caseChanPfx
  dsimp only
  by_cases h1 : length ≠ 1
  · rw [if_pos h1]
    exact MidiFileStream.budgeted_same s0 _ rfl rfl
  · rw [if_neg h1]
    rcases hp : MidiFileStream.readChunkByte
      { s0 with eventType := ET_CHAN_PFX } with ⟨v, t⟩
    have hb : MidiFileStream.Budgeted s0 t := by
      have h0 := MidiFileStream.readChunkByte_budgeted
        { s0 with eventType := ET_CHAN_PFX }
      rw [hp] at h0
      exact MidiFileStream.budgeted_trans s0 _ t
        (MidiFileStream.budgeted_same s0 _ rfl rfl) h0
    try dsimp only
    by_cases hv : v < 0
    · rw [if_pos hv]
      exact MidiFileStream.budgeted_update s0 t _ hb rfl rfl
    · rw [if_neg hv]
      exact MidiFileStream.budgeted_update s0 t _ hb rfl rfl

theorem MidiFileStream.caseEndTrack_budgeted (length : Int)
    (s0 : MidiFileStream) :
    MidiFileStream.Budgeted s0 (MidiFileStream.caseEndTrack length s0).2 := by
  delta MidiFileStream.caseEndTrack
  dsimp only
  by_cases h1 : length ≠ 0
  · rw [if_pos h1]
    exact MidiFileStream.budgeted_same s0 _ rfl rfl
  · rw [if_neg h1]
    exact MidiFileStream.budgeted_same s0 _ rfl rfl

theorem MidiFileStream.caseTempo_budgeted (length : Int)
    (s0 : MidiFileStream) :
    MidiFileStream.Budgeted s0 (MidiFileStream.caseTempo length s0).2 := by
  delta MidiFileStream.caseTempo
  dsimp only
  by_cases h1 : length ≠ 3
  · rw [if_pos h1]
    exact MidiFileStream.budgeted_same s0 _ rfl rfl
  · rw [if_neg h1]
    rcases hp : MidiFileStream.readFixedLong 3
      { s0 with eventType := ET_TEMPO } with ⟨v, t⟩
    have hb : MidiFileStream.Budgeted s0 t := by
      have h0 := MidiFileStream.readFixedLong_budgeted 3
        { s0 with eventType := ET_TEMPO }
      rw [hp] at h0
      exact MidiFileStream.budgeted_trans s0 _ t
        (MidiFileStream.budgeted_same s0 _ rfl rfl) h0
    try dsimp only
    by_cases hv : v < 0
    · rw [if_pos hv]
      exact MidiFileStream.budgeted_update s0 t _
        (MidiFileStream.budgeted_update s0 t _ hb rfl rfl) rfl rfl
    · rw [if_neg hv]
      exact MidiFileStream.budgeted_update s0 t _ hb rfl rfl

theorem MidiFileStream.caseSmpteOffset_budgeted (length : Int)
    (s0 : MidiFileStream) :
    MidiFileStream.Budgeted s0
      (MidiFileStream.caseSmpteOffset length s0).2 := by
  delta MidiFileStream.caseSmpteOffset
  dsimp only
  by_cases h1 : length ≠ 5
  · rw [if_pos h1]
    exact MidiFileStream.budgeted_same s0 _ rfl rfl
  · rw [if_neg h1]
    try dsimp only
    refine MidiFileStream.budgeted_meta_byte_step s0 _ ?_
      (fun v d => { d with smpteF100ths := v })
    refine MidiFileStream.budgeted_meta_byte_step s0 _ ?_
      (fun v d => { d with smpteFrames := v })
    refine MidiFileStream.budgeted_meta_byte_step s0 _ ?_
      (fun v d => { d with smpteSeconds := v })
    refine MidiFileStream.budgeted_meta_byte_step s0 _ ?_
      (fun v d => { d with smpteMinutes := v })
    refine MidiFileStream.budgeted_meta_byte_step s0 _ ?_
      (fun v d => { d with smpteHours := v })
    exact MidiFileStream.budgeted_same s0 _ rfl rfl

theorem MidiFileStream.caseTimeSign_budgeted (length : Int)
    (s0 : MidiFileStream) :
    MidiFileStream.Budgeted s0
      (MidiFileStream.caseTimeSign length s0).2 := by
  delta MidiFileStream.caseTimeSign
  dsimp only
  by_cases h1 : length ≠ 4
  · rw [if_pos h1]
    exact MidiFileStream.budgeted_same s0 _ rfl rfl
  · rw [if_neg h1]
    try dsimp only
    refine MidiFileStream.budgeted_meta_byte_step s0 _ ?_
      (fun v d => { d with timeM32nds := v })
    refine MidiFileStream.budgeted_meta_byte_step s0 _ ?_
      (fun v d => { d with timeMetro := v })
    refine MidiFileStream.budgeted_meta_byte_step s0 _ ?_
      (fun v d => { d with timeDenom := toSigned16 ((2 : Int) ^ v.toNat) })
    refine MidiFileStream.budgeted_meta_byte_step s0 _ ?_
      (fun v d => { d with timeNumer := v })
    exact MidiFileStream.budgeted_same s0 _ rfl rfl

theorem MidiFileStream.caseKeySign_budgeted (length : Int)
    (s0 : MidiFileStream) :
    MidiFileStream.Budgeted s0
      (MidiFileStream.caseKeySign length s0).2 := by
  delta MidiFileStream.caseKeySign
  dsimp only
  by_cases h1 : length ≠ 2
  · rw [if_pos h1]
    exact MidiFileStream.budgeted_same s0 _ rfl rfl
  · rw [if_neg h1]
    try dsimp only
    refine MidiFileStream.budgeted_meta_byte_step s0 _ ?_
      (fun v d => { d with keyIsMinor := v })
    refine MidiFileStream.budgeted_meta_byte_step s0 _ ?_
      (fun v d =>
        { d with keyNumSharps :=
            if and0x80 v ≠ 0 then orNeg0x80 v else v })
    exact MidiFileStream.budgeted_same s0 _ rfl rfl

theorem MidiFileStream.caseMetaDefault_budgeted (length : Int)
    (s0 : MidiFileStream) :
    MidiFileStream.Budgeted s0
      (MidiFileStream.caseMetaDefault length s0).2 := by
  delta MidiFileStream.caseMetaDefault
  dsimp only
  rcases hp : MidiFileStream.metaSkip length.toNat
    { s0 with eventType := ET_NO_OP } with ⟨ok, t⟩
  have hb : MidiFileStream.Budgeted s0 t := by
    have h0 := MidiFileStream.metaSkip_budgeted length.toNat
      { s0 with eventType := ET_NO_OP }
    rw [hp] at h0
    exact MidiFileStream.budgeted_trans s0 _ t
      (MidiFileStream.budgeted_same s0 _ rfl rfl) h0
  try dsimp only
  by_cases hok : ok = false
  · rw [if_pos hok]
    exact MidiFileStream.budgeted_update s0 t _ hb rfl rfl
  · rw [if_neg hok]
    exact hb

theorem MidiFileStream.metaDispatch_budgeted (metaType length : Int)
    (s : MidiFileStream) :
    MidiFileStream.Budgeted s
      (MidiFileStream.metaDispatch metaType length s).2 := by
  delta MidiFileStream.metaDispatch
  rcases eq_or_ne metaType 0 with h0 | h0
  · rw [if_pos h0]
    exact MidiFileStream.caseSeqNum_budgeted _ _
  · rw [if_neg h0]
    rcases eq_or_ne metaType 1 with h1 | h1
    · rw [if_pos h1]
      exact MidiFileStream.readTextLikeMeta_budgeted _ _ _ _ _
    · rw [if_neg h1]
      rcases eq_or_ne metaType 2 with h2 | h2
      · rw [if_pos h2]
        exact MidiFileStream.readTextLikeMeta_budgeted _ _ _ _ _
      · rw [if_neg h2]
        rcases eq_or_ne metaType 3 with h3 | h3
        · rw [if_pos h3]
          exact MidiFileStream.readTextLikeMeta_budgeted _ _ _ _ _
        · rw [if_neg h3]
          rcases eq_or_ne metaType 4 with h4 | h4
          · rw [if_pos h4]
            exact MidiFileStream.readTextLikeMeta_budgeted _ _ _ _ _
          · rw [if_neg h4]
            rcases eq_or_ne metaType 5 with h5 | h5
            · rw [if_pos h5]
              exact MidiFileStream.readTextLikeMeta_budgeted _ _ _ _ _
            · rw [if_neg h5]
              rcases eq_or_ne metaType 6 with h6 | h6
              · rw [if_pos h6]
                exact MidiFileStream.readTextLikeMeta_budgeted _ _ _ _ _
              · rw [if_neg h6]
                rcases eq_or_ne metaType 7 with h7 | h7
                · rw [if_pos h7]
                  exact MidiFileStream.readTextLikeMeta_budgeted _ _ _ _ _
                · rw [if_neg h7]
                  rcases eq_or_ne metaType 32 with h8 | h8
                  · rw [if_pos h8]
                    exact MidiFileStream.caseChanPfx_budgeted _ _
                  · rw [if_neg h8]
                    rcases eq_or_ne metaType 47 with h9 | h9
                    · rw [if_pos h9]
                      exact MidiFileStream.caseEndTrack_budgeted _ _
                    · rw [if_neg h9]
                      rcases eq_or_ne metaType 81 with h10 | h10
                      · rw [if_pos h10]
                        exact MidiFileStream.caseTempo_budgeted _ _
                      · rw [if_neg h10]
                        rcases eq_or_ne metaType 84 with h11 | h11
                        · rw [if_pos h11]
                          exact MidiFileStream.caseSmpteOffset_budgeted _ _
                        · rw [if_neg h11]
                          rcases eq_or_ne metaType 88 with h12 | h12
                          · rw [if_pos h12]
                            exact MidiFileStream.caseTimeSign_budgeted _ _
                          · rw [if_neg h12]
                            rcases eq_or_ne metaType 89 with h13 | h13
                            · rw [if_pos h13]
                              exact MidiFileStream.caseKeySign_budgeted _ _
                            · rw [if_neg h13]
                              exact MidiFileStream.caseMetaDefault_budgeted _ _

theorem MidiFileStream.readEventMeta_budgeted (s0 : MidiFileStream) :
    MidiFileStream.Budgeted s0 (MidiFileStream.readEventMeta s0).2 := by
  delta MidiFileStream.readEventMeta
  dsimp only
  rcases hp : MidiFileStream.readChunkByte
    { s0 with runningStatus := 0 } with ⟨v, t⟩
  have hb1 : MidiFileStream.Budgeted s0 t := by
    have h0 := MidiFileStream.readChunkByte_budgeted
      { s0 with runningStatus := 0 }
    rw [hp] at h0
    exact MidiFileStream.budgeted_trans s0 _ t
      (MidiFileStream.budgeted_same s0 _ rfl rfl) h0
  try dsimp only
  by_cases hv : v < 0
  · rw [if_pos hv]
    exact MidiFileStream.budgeted_update s0 t _ hb1 rfl rfl
  · rw [if_neg hv]
    rcases hq : MidiFileStream.readVariableLong t with ⟨w, u⟩
    have hb2 : MidiFileStream.Budgeted s0 u := by
      have h0 := MidiFileStream.readVariableLong_budgeted t
      rw [hq] at h0
      exact MidiFileStream.budgeted_trans s0 t u hb1 h0
    try dsimp only
    by_cases hw : w < 0
    · rw [if_pos hw]
      exact MidiFileStream.budgeted_update s0 u _ hb2 rfl rfl
    · rw [if_neg hw]
      exact MidiFileStream.budgeted_trans s0 u _ hb2
        (MidiFileStream.metaDispatch_budgeted v w u)

theorem MidiFileStream.readEventSysex_budgeted (bint : Int)
    (s0 : MidiFileStream) :
    MidiFileStream.Budgeted s0
      (MidiFileStream.readEventSysex bint s0).2 := by
  delta MidiFileStream.readEventSysex
  dsimp only
  rcases hp : MidiFileStream.readVariableLong
    { s0 with runningStatus := 0 } with ⟨v, t⟩
  have hb1 : MidiFileStream.Budgeted s0 t := by
    have h0 := MidiFileStream.readVariableLong_budgeted
      { s0 with runningStatus := 0 }
    rw [hp] at h0
    exact MidiFileStream.budgeted_trans s0 _ t
      (MidiFileStream.budgeted_same s0 _ rfl rfl) h0
  try dsimp only
  by_cases hv : v < 0
  · rw [if_pos hv]
    exact MidiFileStream.budgeted_update s0 t _ hb1 rfl rfl
  · rw [if_neg hv]
    by_cases hf0 : bint = 0xF0
    · rw [if_pos hf0]
      rcases hq : MidiFileStream.readVariableBytes v
        t.eventData.sysexF0.bytes { t with eventType := ET_SYSEX_F0 }
        with ⟨w, buf2, u⟩
      have hb2 : MidiFileStream.Budgeted s0 u := by
        have h0 := MidiFileStream.readVariableBytes_budgeted v
          t.eventData.sysexF0.bytes { t with eventType := ET_SYSEX_F0 }
        rw [hq] at h0
        exact MidiFileStream.budgeted_trans s0 t u hb1
          (MidiFileStream.budgeted_trans t _ u
            (MidiFileStream.budgeted_same t _ rfl rfl) h0)
      try dsimp only
      by_cases hw : w < 0
      · rw [if_pos hw]
        exact MidiFileStream.budgeted_update s0 u _
          (MidiFileStream.budgeted_update s0 u _ hb2 rfl rfl) rfl rfl
      · rw [if_neg hw]
        exact MidiFileStream.budgeted_update s0 u _ hb2 rfl rfl
    · rw [if_neg hf0]
      by_cases hf7 : bint = 0xF7
      · rw [if_pos hf7]
        rcases hq : MidiFileStream.readVariableBytes v
          t.eventData.sysexEsc.bytes { t with eventType := ET_SYSEX_ESC }
          with ⟨w, buf2, u⟩
        have hb2 : MidiFileStream.Budgeted s0 u := by
          have h0 := MidiFileStream.readVariableBytes_budgeted v
            t.eventData.sysexEsc.bytes { t with eventType := ET_SYSEX_ESC }
          rw [hq] at h0
          exact MidiFileStream.budgeted_trans s0 t u hb1
            (MidiFileStream.budgeted_trans t _ u
              (MidiFileStream.budgeted_same t _ rfl rfl) h0)
        try dsimp only
        by_cases hw : w < 0
        · rw [if_pos hw]
          exact MidiFileStream.budgeted_update s0 u _
            (MidiFileStream.budgeted_update s0 u _ hb2 rfl rfl) rfl rfl
        · rw [if_neg hw]
          exact MidiFileStream.budgeted_update s0 u _ hb2 rfl rfl
      · rw [if_neg hf7]
        exact hb1

theorem MidiFileStream.channelParam2_budgeted (s : MidiFileStream) :
    MidiFileStream.Budgeted s (MidiFileStream.channelParam2 s).2 := by
  delta MidiFileStream.channelParam2
  dsimp only
  by_cases hc : s.eventData.chCode = 0xC ∨ s.eventData.chCode = 0xD
  · rw [if_pos hc]
    exact MidiFileStream.budgeted_same s _ rfl rfl
  · rw [if_neg hc]
    rcases hp : MidiFileStream.readChunkByte s with ⟨v, t⟩
    have hb : MidiFileStream.Budgeted s t := by
      have h0 := MidiFileStream.readChunkByte_budgeted s
      rw [hp] at h0
      exact h0
    try dsimp only
    by_cases hv : v < 0
    · rw [if_pos hv]
      exact MidiFileStream.budgeted_update s t _ hb rfl rfl
    · rw [if_neg hv]
      exact MidiFileStream.budgeted_update s t _ hb rfl rfl

theorem MidiFileStream.channelFinish_budgeted (bint runningBint : Int)
    (s0 : MidiFileStream) :
    MidiFileStream.Budgeted s0
      (MidiFileStream.channelFinish bint runningBint s0).2 := by
  delta MidiFileStream.channelFinish
  dsimp only
  by_cases hr : runningBint ≠ -1
  · rw [if_pos hr]
    refine MidiFileStream.budgeted_trans s0 _ _ ?_
      (MidiFileStream.channelParam2_budgeted _)
    exact MidiFileStream.budgeted_same s0 _ rfl rfl
  · rw [if_neg hr]
    rcases hp : (MidiFileStream.readChunkByte
      { s0 with runningStatus := bint, eventData := { s0.eventData with chCode := bint / 16, chChan := and0x0F bint } })
      with ⟨v, t⟩
    have hb : MidiFileStream.Budgeted s0 t := by
      have h0 := MidiFileStream.readChunkByte_budgeted
        { s0 with runningStatus := bint, eventData := { s0.eventData with chCode := bint / 16, chChan := and0x0F bint } }
      rw [hp] at h0
      exact MidiFileStream.budgeted_trans s0 _ t
        (MidiFileStream.budgeted_same s0 _ rfl rfl) h0
    try dsimp only
    by_cases hv : v < 0
    · rw [if_pos hv]
      exact MidiFileStream.budgeted_update s0 t _ hb rfl rfl
    · rw [if_neg hv]
      refine MidiFileStream.budgeted_trans s0 _ _ ?_
        (MidiFileStream.channelParam2_budgeted _)
      exact MidiFileStream.budgeted_update s0 t _ hb rfl rfl

theorem MidiFileStream.readEventChannel_budgeted (bint0 : Int)
    (s0 : MidiFileStream) :
    MidiFileStream.Budgeted s0
      (MidiFileStream.readEventChannel bint0 s0).2 := by
  delta MidiFileStream.readEventChannel
  dsimp only
  by_cases h1 : and0x80 bint0 = 0
  · rw [if_pos h1]
    by_cases h2 : and0x80 { s0 with eventType := ET_CHANNEL }.runningStatus = 0
    · rw [if_pos h2]
      exact MidiFileStream.budgeted_same s0 _ rfl rfl
    · rw [if_neg h2]
      refine MidiFileStream.budgeted_trans s0 _ _ ?_
        (MidiFileStream.channelFinish_budgeted _ _ _)
      exact MidiFileStream.budgeted_same s0 _ rfl rfl
  · rw [if_neg h1]
    refine MidiFileStream.budgeted_trans s0 _ _ ?_
      (MidiFileStream.channelFinish_budgeted _ _ _)
    exact MidiFileStream.budgeted_same s0 _ rfl rfl

theorem MidiFileStream.readEvent_budgeted (s0 : MidiFileStream) :
    MidiFileStream.Budgeted s0 (MidiFileStream.readEvent s0).2 := by
  delta MidiFileStream.readEvent
  dsimp only
  rcases hp : MidiFileStream.readVariableLong
    { s0 with eventType := ET_UNK } with ⟨v, t⟩
  have hb1 : MidiFileStream.Budgeted s0 t := by
    have h0 := MidiFileStream.readVariableLong_budgeted
      { s0 with eventType := ET_UNK }
    rw [hp] at h0
    exact MidiFileStream.budgeted_trans s0 _ t
      (MidiFileStream.budgeted_same s0 _ rfl rfl) h0
  try dsimp only
  by_cases hv : v < 0
  · rw [if_pos hv]
    exact MidiFileStream.budgeted_update s0 t _
      (MidiFileStream.budgeted_update s0 t _ hb1 rfl rfl) rfl rfl
  · rw [if_neg hv]
    rcases hq : MidiFileStream.readChunkByte
      { t with eventDeltaTicks := v } with ⟨w, u⟩
    have hb2 : MidiFileStream.Budgeted s0 u := by
      have h0 := MidiFileStream.readChunkByte_budgeted
        { t with eventDeltaTicks := v }
      rw [hq] at h0
      exact MidiFileStream.budgeted_trans s0 t u hb1
        (MidiFileStream.budgeted_trans t _ u
          (MidiFileStream.budgeted_same t _ rfl rfl) h0)
    try dsimp only
    by_cases hw : w < 0
    · rw [if_pos hw]
      exact MidiFileStream.budgeted_update s0 u _ hb2 rfl rfl
    · rw [if_neg hw]
      by_cases hsx : w = 0xF0 ∨ w = 0xF7
      · rw [if_pos hsx]
        exact MidiFileStream.budgeted_trans s0 u _ hb2
          (MidiFileStream.readEventSysex_budgeted w u)
      · rw [if_neg hsx]
        by_cases hff : w = 0xFF
        · rw [if_pos hff]
          exact MidiFileStream.budgeted_trans s0 u _ hb2
            (MidiFileStream.readEventMeta_budgeted u)
        · rw [if_neg hff]
          exact MidiFileStream.budgeted_trans s0 u _ hb2
            (MidiFileStream.readEventChannel_budgeted w u)

/-- C10: the byte-budget invariant.  `readChunkByte` returns `-1`
without touching the stream or the counter when `_bytesLeft <= 0`
(MidiFileStream.cpp lines 975-982); when the counter is positive it
decrements it by exactly one and consumes at most one byte from the
stream.  Consequently every reader built on it — `readFixedLong`,
`readVariableLong`, `readVariableBytes` and `readEvent` — satisfies
the `Budgeted` relation, and with a non-negative starting counter
`readEvent` never consumes more stream bytes than the chunk budget
allows: no read goes past the declared chunk boundary. -/
theorem readChunkByte_budget_invariant (s : MidiFileStream) :
    (s.bytesLeft ≤ 0 → MidiFileStream.readChunkByte s = (-1, s)) ∧
    (0 < s.bytesLeft →
      (MidiFileStream.readChunkByte s).2.bytesLeft = s.bytesLeft - 1 ∧
      (MidiFileStream.readChunkByte s).2.stream = s.stream.tail) ∧
    (∀ n : Nat,
      MidiFileStream.Budgeted s (MidiFileStream.readFixedLong n s).2) ∧
    MidiFileStream.Budgeted s (MidiFileStream.readVariableLong s).2 ∧
    (∀ (len : Int) (buf : Nat → Nat),
      MidiFileStream.Budgeted s
        (MidiFileStream.readVariableBytes len buf s).2.2) ∧
    MidiFileStream.Budgeted s (MidiFileStream.readEvent s).2 ∧
    (0 ≤ s.bytesLeft →
      (s.stream.length : Int) -
        (MidiFileStream.readEvent s).2.stream.length ≤ s.bytesLeft) := by
  refine ⟨MidiFileStream.readChunkByte_stuck s, ?_,
    fun n => MidiFileStream.readFixedLong_budgeted n s,
    MidiFileStream.readVariableLong_budgeted s,
    fun len buf => MidiFileStream.readVariableBytes_budgeted len buf s,
    MidiFileStream.readEvent_budgeted s, ?_⟩
  · intro h
    rcases hs : s.stream with _ | ⟨b, rest⟩
    · rw [MidiFileStream.readChunkByte_nil s h hs]
      refine ⟨rfl, ?_⟩
      dsimp only
      rw [hs]
      rfl
    · rw [MidiFileStream.readChunkByte_cons s b rest h hs]
      refine ⟨rfl, ?_⟩
      dsimp only
      rfl
  · intro h
    obtain ⟨hsf, hlo, hhi, hlen⟩ := MidiFileStream.readEvent_budgeted s
    omega

/-- Witness for C10 at concrete states: a stuck read at budget 0, the
decrement from budget 2 to 1, and the budget relation for a full
`readEvent` (note-on `90 40 7F` after delta 0) with budget 4. -/
theorem readChunkByte_budget_invariant_witness :
    MidiFileStream.readChunkByte (mkState [5, 6] 0 0) =
      (-1, mkState [5, 6] 0 0) ∧
    (MidiFileStream.readChunkByte (mkState [5, 6] 2 0)).2.bytesLeft = 1 ∧
    MidiFileStream.Budgeted (mkState [0, 144, 64, 127] 4 0)
      (MidiFileStream.readEvent (mkState [0, 144, 64, 127] 4 0)).2 ∧
    ((mkState [0, 144, 64, 127] 4 0).stream.length : Int) -
      (MidiFileStream.readEvent (mkState [0, 144, 64, 127] 4 0)).2.stream.length
      ≤ 4 := by
  have h1 := readChunkByte_budget_invariant (mkState [5, 6] 0 0)
  have h2 := readChunkByte_budget_invariant (mkState [5, 6] 2 0)
  have h3 := readChunkByte_budget_invariant (mkState [0, 144, 64, 127] 4 0)
  refine ⟨h1.1 (by norm_num [mkState]), ?_, h3.2.2.2.2.2.1, ?_⟩
  · have hd := (h2.2.1 (by norm_num [mkState])).1
    rw [hd]
    norm_num [mkState]
  · have hlen := h3.2.2.2.2.2.2 (by norm_num [mkState])
    have hbl : (mkState [0, 144, 64, 127] 4 0).bytesLeft = 4 := rfl
    rw [hbl] at hlen
    exact hlen
